import Mathlib

/-
  Shallow embedding of the EnvSync drift-detection core
  (packages/core/src/compare.ts, snapshot.ts, validators/env-vars.ts,
  validators/docker.ts, validators/binaries.ts) and synchronization
  orchestrator (packages/sync/src/env-sync.ts).

  JavaScript `Record<string, string>` objects are modelled as association
  lists with unique keys (a JS object cannot hold duplicate keys); JS `Set`
  iteration is modelled by deduplicated lists (only membership and
  uniqueness of the resulting key sets matter for the statements below, not
  the intra-block ordering).  JS `Date` values are modelled as epoch
  milliseconds (`Nat`).  The truthiness tests the TypeScript source applies
  to possibly-undefined strings (`!localVer`, `if (image)`, `targetVer ?`)
  are modelled by `truthy` on `Option String`: `none` and `some ""` are
  falsy, every other string is truthy — exactly JS semantics on
  `string | undefined` values.
-/

namespace EnvSync

/-- Drift severity levels (types.ts `DriftSeverity`). -/
inductive DriftSeverity where
  | none
  | low
  | medium
  | high
  | critical
deriving DecidableEq, Repr

/-- Drift categories (types.ts `DriftCategory`). -/
inductive DriftCategory where
  | nodejs
  | dependency
  | envvar
  | docker
  | binary
deriving DecidableEq, Repr

/-- Environment tags (types.ts `EnvironmentType`); `localEnv` stands for the
source's `'local'`, which is a reserved word in Lean. -/
inductive EnvironmentType where
  | localEnv
  | staging
  | production
  | ci
  | docker
deriving DecidableEq, Repr

/-- JS truthiness of a `string | undefined` value: `undefined` and the empty
string are falsy. -/
def truthy : Option String → Bool
  | Option.none => false
  | some s => !(s == "")

/-- Template-literal rendering of a `string | undefined` value: JS prints
`undefined` for an absent value. -/
def showOpt : Option String → String
  | Option.none => "undefined"
  | some s => s

/-- Auxiliary: strip `pat` from the front of `s`, or fail. -/
def dropPre? : List Char → List Char → Option (List Char)
  | [], s => some s
  | _, [] => Option.none
  | p :: ps, c :: cs => if p = c then dropPre? ps cs else Option.none

/-- JS `String.prototype.startsWith` on a string pattern. -/
def strStartsWith (s pat : String) : Bool :=
  (dropPre? pat.data s.data).isSome

/-- The first-occurrence replacement at the character level. -/
def replaceFirst (pat rep : List Char) : List Char → List Char
  | [] =>
      (match dropPre? pat [] with
       | some rest => rep ++ rest
       | Option.none => [])
  | c :: cs =>
      (match dropPre? pat (c :: cs) with
       | some rest => rep ++ rest
       | Option.none => c :: replaceFirst pat rep cs)

/-- JS `String.prototype.replace` with a string search pattern: replaces the
first occurrence only. -/
def strReplaceFirst (s pat rep : String) : String :=
  String.mk (replaceFirst pat.data rep.data s.data)

/-- JS `String.prototype.substring(0, n)`: the first `n` characters. -/
def strTake (s : String) (n : Nat) : String :=
  String.mk (s.data.take n)

/-- Node.js runtime information (types.ts `NodeVersionInfo`). -/
structure NodeVersionInfo where
  version : String
  npmVersion : String
  platform : String
  arch : String
  v8Version : String
  modules : String
  openssl : Option String
deriving DecidableEq, Repr

/-- Native module information (types.ts `NativeModuleInfo`); `modified` is a
JS `Date` as epoch milliseconds. -/
structure NativeModuleInfo where
  name : String
  path : String
  platform : String
  arch : String
  nodeAbi : String
  size : Nat
  modified : Nat
deriving DecidableEq, Repr

/-- Dependency snapshot (types.ts `DependencySnapshot`); the production and
development maps are association lists with unique keys. -/
structure DependencySnapshot where
  production : List (String × String)
  development : List (String × String)
  lockfileHash : String
  nativeModules : List NativeModuleInfo
deriving DecidableEq, Repr

/-- Environment variables with redaction support (types.ts
`EnvironmentVariables`). -/
structure EnvironmentVariables where
  «variables» : List (String × String)
  redacted : List String
deriving DecidableEq, Repr

/-- Docker image information (types.ts `DockerImage`); `created` is an
optional JS `Date`. -/
structure DockerImage where
  id : String
  tags : List String
  size : Nat
  created : Option Nat
deriving DecidableEq, Repr

/-- Docker container information (types.ts `DockerContainer`; the untyped
optional `ports` array plays no role in comparison or serialization of the
enumerated wire-form fields and is not modelled). -/
structure DockerContainer where
  id : String
  name : String
  image : String
  state : String
deriving DecidableEq, Repr

/-- Docker Compose configuration (types.ts `DockerComposeConfig`). -/
structure DockerComposeConfig where
  file : String
  version : Option String
  services : List String
  networks : List String
  volumes : List String
deriving DecidableEq, Repr

/-- Docker snapshot (types.ts `DockerSnapshot`); `version`, `platform`,
`arch` are `string | null`. -/
structure DockerSnapshot where
  version : Option String
  platform : Option String
  arch : Option String
  images : List DockerImage
  containers : List DockerContainer
  composeConfigs : List DockerComposeConfig
deriving DecidableEq, Repr

/-- System information (types.ts `SystemInfo`). -/
structure SystemInfo where
  platform : String
  arch : String
  cpus : Nat
  totalMemory : Nat
  freeMemory : Nat
  hostname : String
deriving DecidableEq, Repr

/-- Complete environment snapshot (types.ts `EnvironmentSnapshot`);
`timestamp` is a JS `Date` as epoch milliseconds. -/
structure EnvironmentSnapshot where
  timestamp : Nat
  environment : EnvironmentType
  nodeVersion : NodeVersionInfo
  dependencies : DependencySnapshot
  envVars : EnvironmentVariables
  docker : DockerSnapshot
  system : SystemInfo
  hash : String
deriving DecidableEq, Repr

/-- Individual drift item (types.ts `Drift`); in every drift the comparator
produces, `local` and `remote` hold either a string or `undefined`, modelled
as `Option String`.  `local` is escaped because it is a Lean keyword. -/
structure Drift where
  category : DriftCategory
  severity : DriftSeverity
  field : String
  «local» : Option String
  remote : Option String
  impact : String
  recommendation : String
deriving DecidableEq, Repr

/-- Drift summary statistics (types.ts `DriftSummary`); the `byCategory`
record is flattened into one field per category. -/
structure DriftSummary where
  total : Nat
  critical : Nat
  high : Nat
  medium : Nat
  low : Nat
  byNodejs : Nat
  byDependency : Nat
  byEnvvar : Nat
  byDocker : Nat
  byBinary : Nat
deriving DecidableEq, Repr

/-- Complete drift report (types.ts `DriftReport`). -/
structure DriftReport where
  hasDrift : Bool
  severity : DriftSeverity
  drifts : List Drift
  summary : DriftSummary
  localSnapshot : EnvironmentSnapshot
  remoteSnapshot : EnvironmentSnapshot
deriving DecidableEq, Repr

/-- Parsed semantic version: the (major, minor, patch) decomposition used by
the severity classifier.  Pre-release and build-metadata segments play no
role in the classifier and are not modelled. -/
structure Semver where
  major : Nat
  minor : Nat
  patch : Nat
deriving DecidableEq, Repr

/-- Modelled from the spec: the external `semver` library's `parse` is an
external collaborator (a node_modules package, not repository code).  The
comparator is parameterized over an arbitrary parse function
`String → Option Semver`; `semver.parse` returns `null` for unparsable
strings, modelled by `Option.none`.  Applied to a possibly-undefined value
it also returns `null`, modelled by `Option.bind`. -/
def parseOpt (parse : String → Option Semver) (s : Option String) : Option Semver :=
  s.bind parse

/-- compare.ts `assessVersionDrift`: severity of a dependency version drift.
The TS signature declares two strings but the call site can pass
`undefined` (an absent version), which `semver.parse` maps to `null`; the
arguments are therefore `Option String`.  The catch block of the source is
unreachable (`semver.parse` does not throw on string or undefined input)
and is not modelled. -/
def assessVersionDrift (parse : String → Option Semver)
    (localVer remoteVer : Option String) : DriftSeverity :=
  match parseOpt parse localVer, parseOpt parse remoteVer with
  | some a, some b =>
      if a.major ≠ b.major then DriftSeverity.high
      else if a.minor ≠ b.minor then DriftSeverity.medium
      else DriftSeverity.low
  | _, _ => DriftSeverity.medium

/-- compare.ts `assessNodeVersionDrift`: severity of a Node.js runtime
version drift; a byte-for-byte duplicate of `assessVersionDrift` in the
source, kept separate here as well. -/
def assessNodeVersionDrift (parse : String → Option Semver)
    (localVer remoteVer : Option String) : DriftSeverity :=
  match parseOpt parse localVer, parseOpt parse remoteVer with
  | some a, some b =>
      if a.major ≠ b.major then DriftSeverity.high
      else if a.minor ≠ b.minor then DriftSeverity.medium
      else DriftSeverity.low
  | _, _ => DriftSeverity.medium

/-- compare.ts `describeVersionImpact`. -/
def describeVersionImpact (parse : String → Option Semver)
    (_pkg : String) (localVer remoteVer : Option String) : String :=
  match parseOpt parse localVer, parseOpt parse remoteVer with
  | some a, some b =>
      if a.major ≠ b.major then
        "Major version change (" ++ showOpt localVer ++ " → " ++ showOpt remoteVer ++
          ") - breaking changes likely"
      else if a.minor ≠ b.minor then
        "Minor version change (" ++ showOpt localVer ++ " → " ++ showOpt remoteVer ++
          ") - new features or deprecations"
      else
        "Patch version change (" ++ showOpt localVer ++ " → " ++ showOpt remoteVer ++
          ") - bug fixes"
  | _, _ => "Version format differs"

/-- Splitting of a character list at the dots, for the concrete version
parser below. -/
def splitDots : List Char → List (List Char)
  | [] => [[]]
  | c :: cs =>
      match splitDots cs with
      | [] => [[c]]
      | g :: gs =>
          if c = '.' then [] :: g :: gs else (c :: g) :: gs

/-- Decimal value of one digit character. -/
def digitVal? (c : Char) : Option Nat :=
  if '0' ≤ c ∧ c ≤ '9' then some (c.toNat - '0'.toNat) else Option.none

/-- Decimal value of a nonempty digit string. -/
def natOfChars? (cs : List Char) : Option Nat :=
  match cs with
  | [] => Option.none
  | _ =>
      cs.foldl
        (fun acc c =>
          match acc, digitVal? c with
          | some n, some d => some (n * 10 + d)
          | _, _ => Option.none)
        (some 0)

/-- Modelled from the spec (§4.3): a concrete (major, minor, patch)
decomposition standing in for the external `semver` library on plain
`a.b.c` numeric strings, used to instantiate the classifier table's
concrete rows. -/
def parseSemver (s : String) : Option Semver :=
  match (splitDots s.data).mapM natOfChars? with
  | some [a, b, c] => some ⟨a, b, c⟩
  | _ => Option.none

/-- compare.ts `compareNodeVersions`: the runtime sub-comparison.  Each of
the four `if` blocks of the source contributes at most one drift, in source
order. -/
def compareNodeVersions (parse : String → Option Semver)
    (l r : EnvironmentSnapshot) : List Drift :=
  (if l.nodeVersion.version ≠ r.nodeVersion.version then
    [{ category := DriftCategory.nodejs
       severity := assessNodeVersionDrift parse (some l.nodeVersion.version)
         (some r.nodeVersion.version)
       field := "nodeVersion"
       «local» := some l.nodeVersion.version
       remote := some r.nodeVersion.version
       impact := "Runtime behavior differences, potential API incompatibilities"
       recommendation := "Update local Node.js to " ++ r.nodeVersion.version }]
  else []) ++
  (if l.nodeVersion.npmVersion ≠ r.nodeVersion.npmVersion then
    [{ category := DriftCategory.nodejs
       severity := DriftSeverity.low
       field := "npmVersion"
       «local» := some l.nodeVersion.npmVersion
       remote := some r.nodeVersion.npmVersion
       impact := "Package installation behavior may differ"
       recommendation := "Update npm to " ++ r.nodeVersion.npmVersion }]
  else []) ++
  (if l.nodeVersion.platform ≠ r.nodeVersion.platform then
    [{ category := DriftCategory.nodejs
       severity := DriftSeverity.critical
       field := "platform"
       «local» := some l.nodeVersion.platform
       remote := some r.nodeVersion.platform
       impact := "Platform mismatch - native modules will fail"
       recommendation := "Ensure platform compatibility or use Docker for consistency" }]
  else []) ++
  (if l.nodeVersion.arch ≠ r.nodeVersion.arch then
    [{ category := DriftCategory.nodejs
       severity := DriftSeverity.critical
       field := "arch"
       «local» := some l.nodeVersion.arch
       remote := some r.nodeVersion.arch
       impact := "Architecture mismatch - binaries incompatible"
       recommendation := "Ensure architecture compatibility" }]
  else [])

/-- The spread `{...production, ...development}` of compare.ts: keys of both
maps combined, with the development entry overriding the production one. -/
def combinedFind (d : DependencySnapshot) (k : String) : Option String :=
  match List.lookup k d.development with
  | some v => some v
  | Option.none => List.lookup k d.production

/-- Key set of the combined production+development map. -/
def combinedKeys (d : DependencySnapshot) : List String :=
  (d.production.map Prod.fst ++ d.development.map Prod.fst).dedup

/-- The per-package body of the `for (const pkg of allPackageNames)` loop of
compare.ts `compareDependencies`: at most one drift per package name.  The
`!localVer`-style conditions are JS truthiness on `string | undefined`. -/
def dependencyDriftFor (parse : String → Option Semver)
    (l r : EnvironmentSnapshot) (pkg : String) : Option Drift :=
  let localVer := combinedFind l.dependencies pkg
  let remoteVer := combinedFind r.dependencies pkg
  if !truthy localVer && truthy remoteVer then
    some
      { category := DriftCategory.dependency
        severity := DriftSeverity.high
        field := "dependency." ++ pkg
        «local» := Option.none
        remote := remoteVer
        impact := "Missing dependency - may cause runtime errors"
        recommendation := "Install " ++ pkg ++ "@" ++ showOpt remoteVer }
  else if truthy localVer && !truthy remoteVer then
    some
      { category := DriftCategory.dependency
        severity := DriftSeverity.medium
        field := "dependency." ++ pkg
        «local» := localVer
        remote := Option.none
        impact := "Extra dependency not in remote"
        recommendation := "Remove " ++ pkg ++ " or add to remote environment" }
  else if localVer ≠ remoteVer then
    some
      { category := DriftCategory.dependency
        severity := assessVersionDrift parse localVer remoteVer
        field := "dependency." ++ pkg
        «local» := localVer
        remote := remoteVer
        impact := describeVersionImpact parse pkg localVer remoteVer
        recommendation := "Update " ++ pkg ++ " to " ++ showOpt remoteVer }
  else Option.none

/-- compare.ts `compareDependencies`: union of the combined package names of
both sides (a JS `Set`, here a deduplicated list), one optional drift per
name, followed by the lockfile-hash check. -/
def compareDependencies (parse : String → Option Semver)
    (l r : EnvironmentSnapshot) : List Drift :=
  let allPackageNames := (combinedKeys l.dependencies ++ combinedKeys r.dependencies).dedup
  allPackageNames.filterMap (dependencyDriftFor parse l r) ++
  (if l.dependencies.lockfileHash ≠ r.dependencies.lockfileHash then
    [{ category := DriftCategory.dependency
       severity := DriftSeverity.high
       field := "lockfile"
       «local» := some (strTake l.dependencies.lockfileHash 8)
       remote := some (strTake r.dependencies.lockfileHash 8)
       impact := "Lockfile mismatch - exact dependency versions differ"
       recommendation := "Sync lockfile to ensure identical dependency tree" }]
  else [])

/-- Result of validators/env-vars.ts `compareEnvVars`. -/
structure EnvComparison where
  missing : List String
  extra : List String
  different : List String
deriving DecidableEq, Repr

/-- validators/env-vars.ts `compareEnvVars`: three-way key classification.
`missing` = remote-only keys, `extra` = local-only keys, `different` = keys
on both sides whose values differ and neither value is the redaction
sentinel `[REDACTED]`. -/
def compareEnvVars (l r : EnvironmentVariables) : EnvComparison :=
  let localKeys := (l.«variables».map Prod.fst).dedup
  let remoteKeys := (r.«variables».map Prod.fst).dedup
  { missing := remoteKeys.filter (fun k => !localKeys.contains k)
    extra := localKeys.filter (fun k => !remoteKeys.contains k)
    different := localKeys.filter (fun k =>
      remoteKeys.contains k &&
      (let localVal := List.lookup k l.«variables»
       let remoteVal := List.lookup k r.«variables»
       localVal != remoteVal && localVal != some "[REDACTED]" &&
         remoteVal != some "[REDACTED]")) }

/-- compare.ts `compareEnvironmentVars`: maps the three key classes of
`compareEnvVars` to drifts — missing → high, extra → low, different →
medium. -/
def compareEnvironmentVars (l r : EnvironmentSnapshot) : List Drift :=
  let comparison := compareEnvVars l.envVars r.envVars
  comparison.missing.map (fun k =>
    { category := DriftCategory.envvar
      severity := DriftSeverity.high
      field := "env." ++ k
      «local» := Option.none
      remote := some "[SET]"
      impact := "Missing environment variable - may cause runtime errors"
      recommendation := "Set " ++ k ++ " in local environment" }) ++
  comparison.extra.map (fun k =>
    { category := DriftCategory.envvar
      severity := DriftSeverity.low
      field := "env." ++ k
      «local» := some "[SET]"
      remote := Option.none
      impact := "Extra environment variable not in remote"
      recommendation := "Remove " ++ k ++ " or add to remote environment" }) ++
  comparison.different.map (fun k =>
    { category := DriftCategory.envvar
      severity := DriftSeverity.medium
      field := "env." ++ k
      «local» := List.lookup k l.envVars.«variables»
      remote := List.lookup k r.envVars.«variables»
      impact := "Environment variable value differs"
      recommendation := "Update " ++ k ++ " to match remote value" })

/-- Result of validators/docker.ts `compareDockerConfigs`. -/
structure DockerComparison where
  versionMismatch : Bool
  missingImages : List String
  extraImages : List String
  configDifferences : List String
deriving DecidableEq, Repr

/-- validators/docker.ts `compareDockerConfigs`: version flag, image-tag set
differences, and the coarse compose-file count check. -/
def compareDockerConfigs (l r : DockerSnapshot) : DockerComparison :=
  let localImageTags := (l.images.flatMap DockerImage.tags).dedup
  let remoteImageTags := (r.images.flatMap DockerImage.tags).dedup
  { versionMismatch := l.version ≠ r.version
    missingImages := remoteImageTags.filter (fun t => !localImageTags.contains t)
    extraImages := localImageTags.filter (fun t => !remoteImageTags.contains t)
    configDifferences :=
      if l.composeConfigs.length ≠ r.composeConfigs.length then
        ["Compose file count mismatch: " ++ toString l.composeConfigs.length ++
          " vs " ++ toString r.composeConfigs.length]
      else [] }

/-- compare.ts `compareDocker`: drifts from the docker comparison.  Note the
source consumes `versionMismatch`, `missingImages` and `extraImages` only;
`configDifferences` is never turned into a drift. -/
def compareDocker (l r : EnvironmentSnapshot) : List Drift :=
  let comparison := compareDockerConfigs l.docker r.docker
  (if comparison.versionMismatch then
    [{ category := DriftCategory.docker
       severity := DriftSeverity.medium
       field := "docker.version"
       «local» := l.docker.version
       remote := r.docker.version
       impact := "Docker version mismatch - behavior may differ"
       recommendation := "Update Docker to " ++ showOpt r.docker.version }]
  else []) ++
  comparison.missingImages.map (fun image =>
    { category := DriftCategory.docker
      severity := DriftSeverity.high
      field := "docker.image." ++ image
      «local» := Option.none
      remote := some image
      impact := "Missing Docker image"
      recommendation := "Pull Docker image: docker pull " ++ image }) ++
  comparison.extraImages.map (fun image =>
    { category := DriftCategory.docker
      severity := DriftSeverity.low
      field := "docker.image." ++ image
      «local» := some image
      remote := Option.none
      impact := "Extra Docker image not in remote"
      recommendation := "Remove image or add to remote: " ++ image })

/-- The per-local-module body of the first loop of validators/binaries.ts
`compareNativeModules`: missing-in-remote check, then three independent
attribute checks. -/
def nativeModuleDrifts (r : List NativeModuleInfo)
    (localMod : NativeModuleInfo) : List Drift :=
  match r.find? (fun m => m.name == localMod.name) with
  | Option.none =>
      [{ category := DriftCategory.binary
         severity := DriftSeverity.medium
         field := "native." ++ localMod.name
         «local» := some localMod.platform
         remote := Option.none
         impact := "Native module exists locally but not in remote environment"
         recommendation := "Ensure " ++ localMod.name ++
           " is installed in remote or remove from local" }]
  | some remoteMod =>
      (if localMod.platform ≠ remoteMod.platform then
        [{ category := DriftCategory.binary
           severity := DriftSeverity.critical
           field := "native." ++ localMod.name ++ ".platform"
           «local» := some localMod.platform
           remote := some remoteMod.platform
           impact := "Native module compiled for " ++ localMod.platform ++
             " but remote uses " ++ remoteMod.platform ++ " - will crash"
           recommendation := "Rebuild " ++ localMod.name ++ " for " ++
             remoteMod.platform ++ " platform" }]
      else []) ++
      (if localMod.arch ≠ remoteMod.arch then
        [{ category := DriftCategory.binary
           severity := DriftSeverity.critical
           field := "native." ++ localMod.name ++ ".arch"
           «local» := some localMod.arch
           remote := some remoteMod.arch
           impact := "Architecture mismatch: " ++ localMod.arch ++ " vs " ++
             remoteMod.arch ++ " - module will fail to load"
           recommendation := "Rebuild " ++ localMod.name ++ " for " ++
             remoteMod.arch ++ " architecture" }]
      else []) ++
      (if localMod.nodeAbi ≠ remoteMod.nodeAbi then
        [{ category := DriftCategory.binary
           severity := DriftSeverity.critical
           field := "native." ++ localMod.name ++ ".abi"
           «local» := some localMod.nodeAbi
           remote := some remoteMod.nodeAbi
           impact := "Incompatible Node.js ABI version (" ++ localMod.nodeAbi ++
             " vs " ++ remoteMod.nodeAbi ++ ") - module will fail to load"
           recommendation := "Rebuild " ++ localMod.name ++
             " with Node.js version matching ABI " ++ remoteMod.nodeAbi }]
      else [])

/-- validators/binaries.ts `compareNativeModules`: local-side loop followed
by the remote-only loop. -/
def compareNativeModules (l r : List NativeModuleInfo) : List Drift :=
  l.flatMap (nativeModuleDrifts r) ++
  r.filterMap (fun remoteMod =>
    match l.find? (fun m => m.name == remoteMod.name) with
    | some _ => Option.none
    | Option.none =>
        some
          { category := DriftCategory.binary
            severity := DriftSeverity.high
            field := "native." ++ remoteMod.name
            «local» := Option.none
            remote := some remoteMod.platform
            impact := "Native module required by remote but missing locally - may cause runtime errors"
            recommendation := "Install " ++ remoteMod.name ++ " locally" })

/-- compare.ts `generateSummary`: per-severity and per-category counts. -/
def generateSummary (drifts : List Drift) : DriftSummary :=
  { total := drifts.length
    critical := (drifts.filter (fun d => d.severity == DriftSeverity.critical)).length
    high := (drifts.filter (fun d => d.severity == DriftSeverity.high)).length
    medium := (drifts.filter (fun d => d.severity == DriftSeverity.medium)).length
    low := (drifts.filter (fun d => d.severity == DriftSeverity.low)).length
    byNodejs := (drifts.filter (fun d => d.category == DriftCategory.nodejs)).length
    byDependency := (drifts.filter (fun d => d.category == DriftCategory.dependency)).length
    byEnvvar := (drifts.filter (fun d => d.category == DriftCategory.envvar)).length
    byDocker := (drifts.filter (fun d => d.category == DriftCategory.docker)).length
    byBinary := (drifts.filter (fun d => d.category == DriftCategory.binary)).length }

/-- compare.ts `assessOverallSeverity`: `none` on an empty list, else the
highest severity present. -/
def assessOverallSeverity (drifts : List Drift) : DriftSeverity :=
  if drifts.length = 0 then DriftSeverity.none
  else if drifts.any (fun d => d.severity == DriftSeverity.critical) then DriftSeverity.critical
  else if drifts.any (fun d => d.severity == DriftSeverity.high) then DriftSeverity.high
  else if drifts.any (fun d => d.severity == DriftSeverity.medium) then DriftSeverity.medium
  else if drifts.any (fun d => d.severity == DriftSeverity.low) then DriftSeverity.low
  else DriftSeverity.none

/-- compare.ts `compareSnapshots`: the five sub-comparisons concatenated in
source order, plus summary and overall severity. -/
def compareSnapshots (parse : String → Option Semver)
    (l r : EnvironmentSnapshot) : DriftReport :=
  let drifts :=
    compareNodeVersions parse l r ++
    compareDependencies parse l r ++
    compareEnvironmentVars l r ++
    compareDocker l r ++
    compareNativeModules l.dependencies.nativeModules r.dependencies.nativeModules
  { hasDrift := decide (0 < drifts.length)
    severity := assessOverallSeverity drifts
    drifts := drifts
    summary := generateSummary drifts
    localSnapshot := l
    remoteSnapshot := r }

/-- Well-formedness of a snapshot: the JS record-backed maps carry unique
keys (a JS object cannot hold a duplicate key) and native modules are
keyed by unique names (spec §3: compared per-name). -/
def Wellformed (s : EnvironmentSnapshot) : Prop :=
  (s.dependencies.production.map Prod.fst).Nodup ∧
  (s.dependencies.development.map Prod.fst).Nodup ∧
  (s.envVars.«variables».map Prod.fst).Nodup ∧
  (s.dependencies.nativeModules.map NativeModuleInfo.name).Nodup

instance (s : EnvironmentSnapshot) : Decidable (Wellformed s) := by
  unfold Wellformed
  infer_instance

/-- Sync action result (types.ts `SyncAction`); `action` and `error` are
optional properties, set at exactly one push site each. -/
structure SyncAction where
  drift : Drift
  success : Bool
  action : Option String
  error : Option String
deriving DecidableEq, Repr

/-- Sync options (types.ts `SyncOptions`) after the destructuring defaults
of `EnvironmentSync.sync`: `dryRun` carries its destructured default
`false`; `autoFix` is declared but never read by the orchestrator. -/
structure SyncOptions where
  autoFix : Option Bool
  dryRun : Bool
  categories : Option (List DriftCategory)
  maxSeverity : Option DriftSeverity
deriving DecidableEq, Repr

/-- Sync result summary (types.ts `SyncResult.summary`). -/
structure SyncSummary where
  total : Nat
  succeeded : Nat
  failed : Nat
deriving DecidableEq, Repr

/-- Sync result (types.ts `SyncResult`). -/
structure SyncResult where
  success : Bool
  actions : List SyncAction
  summary : SyncSummary
deriving DecidableEq, Repr

/-- Outcome model for the external `execAsync` collaborator: for a given
shell command string it either resolves (`Except.ok`) or rejects with an
error message (`Except.error`).  Every orchestrator function additionally
returns the list of commands it actually handed to `execAsync`, so "no
external mutating call" is the statement that this trace is empty. -/
def ExecModel : Type := String → Except String Unit

/-- env-sync.ts `severityOrder.indexOf`: `['low','medium','high','critical']`
with JS `indexOf` returning `-1` for a missing entry (`'none'`). -/
def severityIndex : DriftSeverity → Int
  | DriftSeverity.none => -1
  | DriftSeverity.low => 0
  | DriftSeverity.medium => 1
  | DriftSeverity.high => 2
  | DriftSeverity.critical => 3

/-- The drift filtering of env-sync.ts `sync` (category filter, then
max-severity filter), applied before grouping. -/
def filterDrifts (options : SyncOptions) (drifts : List Drift) : List Drift :=
  let afterCategories :=
    match options.categories with
    | some cats =>
        if 0 < cats.length then drifts.filter (fun d => cats.contains d.category)
        else drifts
    | Option.none => drifts
  match options.maxSeverity with
  | some ms => afterCategories.filter (fun d => severityIndex d.severity ≤ severityIndex ms)
  | Option.none => afterCategories

/-- The loop body of env-sync.ts `syncDependencies`: one action per drift,
plus the (at most one) command handed to `execAsync`. -/
def dependencyStep (ex : ExecModel) (dryRun : Bool) (d : Drift) :
    SyncAction × List String :=
  if d.field == "lockfile" then
    ({ drift := d, success := true
       action := some "Lockfile sync requires manual `npm install` or `npm ci`"
       error := Option.none }, [])
  else
    let pkg := strReplaceFirst d.field "dependency." ""
    let targetVer := d.remote
    if dryRun then
      ({ drift := d, success := true
         action := some ("[DRY RUN] Would " ++
           (if truthy targetVer then "install " ++ pkg ++ "@" ++ showOpt targetVer
            else "remove " ++ pkg))
         error := Option.none }, [])
    else if !truthy targetVer then
      let cmd := "npm uninstall " ++ pkg
      match ex cmd with
      | Except.ok _ =>
          ({ drift := d, success := true, action := some ("Removed " ++ pkg)
             error := Option.none }, [cmd])
      | Except.error e =>
          ({ drift := d, success := false, action := Option.none
             error := some e }, [cmd])
    else
      let cmd := "npm install " ++ pkg ++ "@" ++ showOpt targetVer ++ " --save-exact"
      match ex cmd with
      | Except.ok _ =>
          ({ drift := d, success := true
             action := some ("Updated " ++ pkg ++ " to " ++ showOpt targetVer)
             error := Option.none }, [cmd])
      | Except.error e =>
          ({ drift := d, success := false, action := Option.none
             error := some e }, [cmd])

/-- env-sync.ts `syncDependencies`. -/
def syncDependencies (ex : ExecModel) (dryRun : Bool) (drifts : List Drift) :
    List SyncAction × List String :=
  (drifts.map (fun d => (dependencyStep ex dryRun d).1),
   drifts.flatMap (fun d => (dependencyStep ex dryRun d).2))

/-- env-sync.ts `syncEnvVars`: every envvar drift yields one successful
manual-instruction action; no external call is ever made. -/
def syncEnvVars (drifts : List Drift) : List SyncAction × List String :=
  (drifts.map (fun d =>
    { drift := d, success := true
      action := some ("[MANUAL] Set environment variable: " ++
        strReplaceFirst d.field "env." "" ++ "=" ++
        (if truthy d.remote then showOpt d.remote else "(unset)"))
      error := Option.none }), [])

/-- The loop body of env-sync.ts `syncDocker`: an image drift yields a pull
(or a dry-run marker), but when the image reference (`drift.remote`) is
falsy and `dryRun` is false the `if (image)` guard records nothing at all;
any other docker drift yields a manual-instruction action. -/
def dockerStep (ex : ExecModel) (dryRun : Bool) (d : Drift) :
    List SyncAction × List String :=
  if strStartsWith d.field "docker.image." then
    if dryRun then
      ([{ drift := d, success := true
          action := some ("[DRY RUN] Would pull Docker image: " ++ showOpt d.remote)
          error := Option.none }], [])
    else if truthy d.remote then
      let cmd := "docker pull " ++ showOpt d.remote
      match ex cmd with
      | Except.ok _ =>
          ([{ drift := d, success := true
              action := some ("Pulled Docker image: " ++ showOpt d.remote)
              error := Option.none }], [cmd])
      | Except.error e =>
          ([{ drift := d, success := false, action := Option.none
              error := some e }], [cmd])
    else ([], [])
  else
    ([{ drift := d, success := true
        action := some ("[MANUAL] Docker " ++ d.field ++ " requires manual update")
        error := Option.none }], [])

/-- env-sync.ts `syncDocker`. -/
def syncDocker (ex : ExecModel) (dryRun : Bool) (drifts : List Drift) :
    List SyncAction × List String :=
  (drifts.flatMap (fun d => (dockerStep ex dryRun d).1),
   drifts.flatMap (fun d => (dockerStep ex dryRun d).2))

/-- The loop body of env-sync.ts `syncNativeModules`; the module name is
`drift.field.split('.')[1]`, rendered as `undefined` when absent. -/
def nativeModuleStep (ex : ExecModel) (dryRun : Bool) (d : Drift) :
    SyncAction × List String :=
  let moduleName := ((splitDots d.field.data).map String.mk).getD 1 "undefined"
  if dryRun then
    ({ drift := d, success := true
       action := some ("[DRY RUN] Would rebuild " ++ moduleName)
       error := Option.none }, [])
  else
    let cmd := "npm rebuild " ++ moduleName
    match ex cmd with
    | Except.ok _ =>
        ({ drift := d, success := true
           action := some ("Rebuilt native module: " ++ moduleName)
           error := Option.none }, [cmd])
    | Except.error e =>
        ({ drift := d, success := false, action := Option.none
           error := some e }, [cmd])

/-- env-sync.ts `syncNativeModules`. -/
def syncNativeModules (ex : ExecModel) (dryRun : Bool) (drifts : List Drift) :
    List SyncAction × List String :=
  (drifts.map (fun d => (nativeModuleStep ex dryRun d).1),
   drifts.flatMap (fun d => (nativeModuleStep ex dryRun d).2))

/-- env-sync.ts `syncNodeVersion`: informational only, no external call. -/
def syncNodeVersion (drifts : List Drift) : List SyncAction × List String :=
  (drifts.map (fun d =>
    { drift := d, success := true
      action := some ("[MANUAL] Update Node.js to " ++ showOpt d.remote ++
        " (use nvm, volta, or system package manager)")
      error := Option.none }), [])

/-- env-sync.ts `EnvironmentSync.sync`: filter, group by category, run the
five per-category handlers in the fixed source order (dependency, envvar,
docker, binary, nodejs), and assemble the `SyncResult`.  Grouping is
modelled by filtering the drift list per category, which agrees with the
source's `groupDriftsByCategory` (the source skips a category whose group
is absent; a handler applied to an empty list contributes nothing, so the
two are equal).  Returns the result together with the `execAsync` command
trace. -/
def sync (ex : ExecModel) (report : DriftReport) (options : SyncOptions) :
    SyncResult × List String :=
  let drifts := filterDrifts options report.drifts
  let dep := syncDependencies ex options.dryRun
    (drifts.filter (fun d => d.category == DriftCategory.dependency))
  let env := syncEnvVars
    (drifts.filter (fun d => d.category == DriftCategory.envvar))
  let dock := syncDocker ex options.dryRun
    (drifts.filter (fun d => d.category == DriftCategory.docker))
  let bin := syncNativeModules ex options.dryRun
    (drifts.filter (fun d => d.category == DriftCategory.binary))
  let node := syncNodeVersion
    (drifts.filter (fun d => d.category == DriftCategory.nodejs))
  let actions := dep.1 ++ env.1 ++ dock.1 ++ bin.1 ++ node.1
  let succeeded := (actions.filter (fun a => a.success)).length
  let failed := (actions.filter (fun a => !a.success)).length
  ({ success := failed == 0
     actions := actions
     summary := { total := actions.length, succeeded := succeeded, failed := failed } },
   dep.2 ++ env.2 ++ dock.2 ++ bin.2 ++ node.2)

/-- JSON documents, the output of `JSON.stringify` and input of
`JSON.parse`.  `JSON.stringify(snapshot, null, 2)` renders such a document
as text deterministically, so two equal documents render to byte-identical
strings; the byte-for-byte round-trip claim is stated as document equality
composed with an arbitrary rendering function. -/
inductive Json where
  | null
  | str (s : String)
  | num (n : Nat)
  | arr (elems : List Json)
  | obj (fields : List (String × Json))

/-- Modelled from the spec (§6): the JS `Date` ISO codec is part of the
runtime, not repository code.  `printDate` is `Date.prototype.toJSON`
(the date-time string) and `parseDate` is `new Date(string)` on epoch
milliseconds; §6 requires that deserialization restore date-time strings to
dates, i.e. that `parseDate` invert `printDate`, which the theorems take as
a hypothesis. -/
structure DateCodec where
  printDate : Nat → String
  parseDate : String → Nat

/-- The wire form of `EnvironmentType` (snapshot.ts / types.ts). -/
def environmentString : EnvironmentType → String
  | EnvironmentType.localEnv => "local"
  | EnvironmentType.staging => "staging"
  | EnvironmentType.production => "production"
  | EnvironmentType.ci => "ci"
  | EnvironmentType.docker => "docker"

/-- `string | null` rendering: JS `null` is serialized, while an absent
optional property is omitted. -/
def jsonOfOptNull : Option String → Json
  | Option.none => Json.null
  | some s => Json.str s

/-- Serialized form of a `Record<string, string>`. -/
def jsonOfStringMap (m : List (String × String)) : Json :=
  Json.obj (m.map (fun kv => (kv.1, Json.str kv.2)))

/-- Serialized form of a string array. -/
def jsonOfStrings (l : List String) : Json :=
  Json.arr (l.map Json.str)

/-- Serialized form of `NodeVersionInfo`; the optional `openssl` property is
omitted when absent (`JSON.stringify` drops `undefined` properties). -/
def jsonOfNodeVersion (nv : NodeVersionInfo) : Json :=
  Json.obj
    ([("version", Json.str nv.version),
      ("npmVersion", Json.str nv.npmVersion),
      ("platform", Json.str nv.platform),
      ("arch", Json.str nv.arch),
      ("v8Version", Json.str nv.v8Version),
      ("modules", Json.str nv.modules)] ++
     (match nv.openssl with
      | some o => [("openssl", Json.str o)]
      | Option.none => []))

/-- Serialized form of `NativeModuleInfo`; `modified` is a `Date` rendered
by the date codec. -/
def jsonOfNativeModule (c : DateCodec) (m : NativeModuleInfo) : Json :=
  Json.obj
    [("name", Json.str m.name),
     ("path", Json.str m.path),
     ("platform", Json.str m.platform),
     ("arch", Json.str m.arch),
     ("nodeAbi", Json.str m.nodeAbi),
     ("size", Json.num m.size),
     ("modified", Json.str (c.printDate m.modified))]

/-- Serialized form of `DependencySnapshot`. -/
def jsonOfDependencies (c : DateCodec) (d : DependencySnapshot) : Json :=
  Json.obj
    [("production", jsonOfStringMap d.production),
     ("development", jsonOfStringMap d.development),
     ("lockfileHash", Json.str d.lockfileHash),
     ("nativeModules", Json.arr (d.nativeModules.map (jsonOfNativeModule c)))]

/-- Serialized form of `EnvironmentVariables`. -/
def jsonOfEnvVars (ev : EnvironmentVariables) : Json :=
  Json.obj
    [("variables", jsonOfStringMap ev.«variables»),
     ("redacted", jsonOfStrings ev.redacted)]

/-- Serialized form of `DockerImage`; the optional `created` date is omitted
when absent. -/
def jsonOfImage (c : DateCodec) (i : DockerImage) : Json :=
  Json.obj
    ([("id", Json.str i.id),
      ("tags", jsonOfStrings i.tags),
      ("size", Json.num i.size)] ++
     (match i.created with
      | some d => [("created", Json.str (c.printDate d))]
      | Option.none => []))

/-- Serialized form of `DockerContainer`. -/
def jsonOfContainer (ct : DockerContainer) : Json :=
  Json.obj
    [("id", Json.str ct.id),
     ("name", Json.str ct.name),
     ("image", Json.str ct.image),
     ("state", Json.str ct.state)]

/-- Serialized form of `DockerComposeConfig`; the optional `version`
property is omitted when absent. -/
def jsonOfCompose (cc : DockerComposeConfig) : Json :=
  Json.obj
    ([("file", Json.str cc.file)] ++
     (match cc.version with
      | some v => [("version", Json.str v)]
      | Option.none => []) ++
     [("services", jsonOfStrings cc.services),
      ("networks", jsonOfStrings cc.networks),
      ("volumes", jsonOfStrings cc.volumes)])

/-- Serialized form of `DockerSnapshot`. -/
def jsonOfDocker (c : DateCodec) (dk : DockerSnapshot) : Json :=
  Json.obj
    [("version", jsonOfOptNull dk.version),
     ("platform", jsonOfOptNull dk.platform),
     ("arch", jsonOfOptNull dk.arch),
     ("images", Json.arr (dk.images.map (jsonOfImage c))),
     ("containers", Json.arr (dk.containers.map jsonOfContainer)),
     ("composeConfigs", Json.arr (dk.composeConfigs.map jsonOfCompose))]

/-- Serialized form of `SystemInfo`. -/
def jsonOfSystem (sys : SystemInfo) : Json :=
  Json.obj
    [("platform", Json.str sys.platform),
     ("arch", Json.str sys.arch),
     ("cpus", Json.num sys.cpus),
     ("totalMemory", Json.num sys.totalMemory),
     ("freeMemory", Json.num sys.freeMemory),
     ("hostname", Json.str sys.hostname)]

/-- snapshot.ts `serializeSnapshot`: `JSON.stringify(snapshot, null, 2)`,
modelled as the JSON document it renders (dates become date-time strings,
absent optional properties are omitted, property order follows the
structure's declaration order). -/
def serializeSnapshot (c : DateCodec) (s : EnvironmentSnapshot) : Json :=
  Json.obj
    [("timestamp", Json.str (c.printDate s.timestamp)),
     ("environment", Json.str (environmentString s.environment)),
     ("nodeVersion", jsonOfNodeVersion s.nodeVersion),
     ("dependencies", jsonOfDependencies c s.dependencies),
     ("envVars", jsonOfEnvVars s.envVars),
     ("docker", jsonOfDocker c s.docker),
     ("system", jsonOfSystem s.system),
     ("hash", Json.str s.hash)]

/-- Property access `obj.key` on a parsed JSON document. -/
def Json.get? : Json → String → Option Json
  | Json.obj fields, k => List.lookup k fields
  | _, _ => Option.none

/-- Narrowing of a parsed JSON value to a string. -/
def Json.asStr? : Json → Option String
  | Json.str s => some s
  | _ => Option.none

/-- Narrowing of a parsed JSON value to a number. -/
def Json.asNum? : Json → Option Nat
  | Json.num n => some n
  | _ => Option.none

/-- Narrowing of a parsed JSON value to an array. -/
def Json.asArr? : Json → Option (List Json)
  | Json.arr elems => some elems
  | _ => Option.none

/-- String-valued property access. -/
def Json.getStr? (j : Json) (k : String) : Option String :=
  (j.get? k).bind Json.asStr?

/-- Number-valued property access. -/
def Json.getNum? (j : Json) (k : String) : Option Nat :=
  (j.get? k).bind Json.asNum?

/-- Array-valued property access. -/
def Json.getArr? (j : Json) (k : String) : Option (List Json) :=
  (j.get? k).bind Json.asArr?

/-- Optional string-valued property: absent → `none`, present string →
`some`, present non-string → decode failure. -/
def Json.getOptStr? (j : Json) (k : String) : Option (Option String) :=
  match j.get? k with
  | Option.none => some Option.none
  | some v => v.asStr?.map some

/-- `string | null` property access. -/
def Json.getStrNull? (j : Json) (k : String) : Option (Option String) :=
  match j.get? k with
  | some Json.null => some Option.none
  | some (Json.str s) => some (some s)
  | _ => Option.none

/-- Elementwise decoding of a list, failing if any element fails. -/
def optMapList (f : α → Option β) : List α → Option (List β)
  | [] => some []
  | x :: xs =>
      match f x, optMapList f xs with
      | some y, some ys => some (y :: ys)
      | _, _ => Option.none

/-- Decoding of a `Record<string, string>` document. -/
def decodeStringMap (j : Json) : Option (List (String × String)) :=
  match j with
  | Json.obj fields => optMapList (fun kv => kv.2.asStr?.map (fun v => (kv.1, v))) fields
  | _ => Option.none

/-- Decoding of a string-array document. -/
def decodeStrings (j : Json) : Option (List String) :=
  match j with
  | Json.arr elems => optMapList Json.asStr? elems
  | _ => Option.none

/-- The wire form of `EnvironmentType`, read back. -/
def decodeEnvironment (s : String) : Option EnvironmentType :=
  if s == "local" then some EnvironmentType.localEnv
  else if s == "staging" then some EnvironmentType.staging
  else if s == "production" then some EnvironmentType.production
  else if s == "ci" then some EnvironmentType.ci
  else if s == "docker" then some EnvironmentType.docker
  else Option.none

/-- Structural decoding of a serialized `NodeVersionInfo`. -/
def decodeNodeVersion (j : Json) : Option NodeVersionInfo := do
  let version ← j.getStr? "version"
  let npmVersion ← j.getStr? "npmVersion"
  let platform ← j.getStr? "platform"
  let arch ← j.getStr? "arch"
  let v8Version ← j.getStr? "v8Version"
  let modules ← j.getStr? "modules"
  let openssl ← j.getOptStr? "openssl"
  pure ⟨version, npmVersion, platform, arch, v8Version, modules, openssl⟩

/-- Structural decoding of a serialized `NativeModuleInfo`.  The source's
deserializer computes `modified: new Date(mod.modified)` — the one place a
native module's fields are revived — modelled by `parseDate` on the stored
date-time string. -/
def decodeNativeModule (c : DateCodec) (j : Json) : Option NativeModuleInfo := do
  let name ← j.getStr? "name"
  let path ← j.getStr? "path"
  let platform ← j.getStr? "platform"
  let arch ← j.getStr? "arch"
  let nodeAbi ← j.getStr? "nodeAbi"
  let size ← j.getNum? "size"
  let modified ← j.getStr? "modified"
  pure ⟨name, path, platform, arch, nodeAbi, size, c.parseDate modified⟩

/-- Structural decoding of a serialized `DependencySnapshot`. -/
def decodeDependencies (c : DateCodec) (j : Json) : Option DependencySnapshot := do
  let production ← (j.get? "production").bind decodeStringMap
  let development ← (j.get? "development").bind decodeStringMap
  let lockfileHash ← j.getStr? "lockfileHash"
  let nativeModules ← (j.getArr? "nativeModules").bind
    (optMapList (decodeNativeModule c))
  pure ⟨production, development, lockfileHash, nativeModules⟩

/-- Structural decoding of a serialized `EnvironmentVariables`. -/
def decodeEnvVars (j : Json) : Option EnvironmentVariables := do
  let vars ← (j.get? "variables").bind decodeStringMap
  let redacted ← (j.get? "redacted").bind decodeStrings
  pure ⟨vars, redacted⟩

/-- Structural decoding of a serialized `DockerImage`.  The source's
deserializer computes `created: img.created ? new Date(img.created) :
undefined`, so an absent (or falsy) `created` stays absent and a date-time
string is revived through the codec. -/
def decodeImage (c : DateCodec) (j : Json) : Option DockerImage := do
  let id ← j.getStr? "id"
  let tags ← (j.get? "tags").bind decodeStrings
  let size ← j.getNum? "size"
  let created ← j.getOptStr? "created"
  pure ⟨id, tags, size,
    (match created with
     | some s => if s == "" then Option.none else some (c.parseDate s)
     | Option.none => Option.none)⟩

/-- Structural decoding of a serialized `DockerContainer`. -/
def decodeContainer (j : Json) : Option DockerContainer := do
  let id ← j.getStr? "id"
  let name ← j.getStr? "name"
  let image ← j.getStr? "image"
  let state ← j.getStr? "state"
  pure ⟨id, name, image, state⟩

/-- Structural decoding of a serialized `DockerComposeConfig`. -/
def decodeCompose (j : Json) : Option DockerComposeConfig := do
  let file ← j.getStr? "file"
  let version ← j.getOptStr? "version"
  let services ← (j.get? "services").bind decodeStrings
  let networks ← (j.get? "networks").bind decodeStrings
  let volumes ← (j.get? "volumes").bind decodeStrings
  pure ⟨file, version, services, networks, volumes⟩

/-- Structural decoding of a serialized `DockerSnapshot`. -/
def decodeDocker (c : DateCodec) (j : Json) : Option DockerSnapshot := do
  let version ← j.getStrNull? "version"
  let platform ← j.getStrNull? "platform"
  let arch ← j.getStrNull? "arch"
  let images ← (j.getArr? "images").bind (optMapList (decodeImage c))
  let containers ← (j.getArr? "containers").bind (optMapList decodeContainer)
  let composeConfigs ← (j.getArr? "composeConfigs").bind (optMapList decodeCompose)
  pure ⟨version, platform, arch, images, containers, composeConfigs⟩

/-- Structural decoding of a serialized `SystemInfo`. -/
def decodeSystem (j : Json) : Option SystemInfo := do
  let platform ← j.getStr? "platform"
  let arch ← j.getStr? "arch"
  let cpus ← j.getNum? "cpus"
  let totalMemory ← j.getNum? "totalMemory"
  let freeMemory ← j.getNum? "freeMemory"
  let hostname ← j.getStr? "hostname"
  pure ⟨platform, arch, cpus, totalMemory, freeMemory, hostname⟩

/-- snapshot.ts `deserializeSnapshot`: `JSON.parse` followed by the explicit
date restorations (`parsed.timestamp`, `docker.images[*].created`,
`dependencies.nativeModules[*].modified` are wrapped in `new Date(...)`;
every other field is taken as parsed).  The source performs no structural
validation — the parsed object is cast — so decoding into the typed
`EnvironmentSnapshot` is total exactly on documents of the serialized
shape, which covers every round-trip input. -/
def deserializeSnapshot (c : DateCodec) (j : Json) : Option EnvironmentSnapshot := do
  let timestamp ← j.getStr? "timestamp"
  let environment ← (j.getStr? "environment").bind decodeEnvironment
  let nodeVersion ← (j.get? "nodeVersion").bind decodeNodeVersion
  let dependencies ← (j.get? "dependencies").bind (decodeDependencies c)
  let envVars ← (j.get? "envVars").bind decodeEnvVars
  let docker ← (j.get? "docker").bind (decodeDocker c)
  let system ← (j.get? "system").bind decodeSystem
  let hash ← j.getStr? "hash"
  pure ⟨c.parseDate timestamp, environment, nodeVersion, dependencies, envVars,
    docker, system, hash⟩

/-- The dry-run simulation marker: the action text begins with the literal
`[DRY RUN]` the orchestrator prepends on simulated mutating actions. -/
def hasDryRunMarker (s : String) : Bool :=
  strStartsWith s "[DRY RUN]"

/-- The drifts whose remediation performs an external mutating call when not
in dry-run mode: dependency install/remove (everything but the synthetic
lockfile field), docker image pulls, and native-module rebuilds. -/
def simulatedPath (d : Drift) : Prop :=
  (d.category = DriftCategory.dependency ∧ d.field ≠ "lockfile") ∨
  (d.category = DriftCategory.docker ∧ strStartsWith d.field "docker.image." = true) ∨
  d.category = DriftCategory.binary

/- Concrete example data used by witnesses and counterexamples. -/

/-- Example runtime info. -/
def exNode : NodeVersionInfo :=
  ⟨"18.17.0", "9.6.7", "linux", "x64", "11.3", "108", Option.none⟩

/-- Example system info. -/
def exSystem : SystemInfo := ⟨"linux", "x64", 8, 1000, 500, "host"⟩

/-- Example docker state without compose files. -/
def exDocker : DockerSnapshot :=
  ⟨some "24.0.5", Option.none, Option.none, [], [], []⟩

/-- Example well-formed snapshot. -/
def exSnap : EnvironmentSnapshot :=
  ⟨1000, EnvironmentType.localEnv, exNode,
   ⟨[("lodash", "4.17.20")], [], "abc123", []⟩,
   ⟨[("HOME", "/root"), ("API_KEY", "[REDACTED]")], ["API_KEY"]⟩,
   exDocker, exSystem, "h1"⟩

/-- Snapshot differing from `exSnap` only in the npm version. -/
def exSnapNpm : EnvironmentSnapshot :=
  { exSnap with nodeVersion := { exNode with npmVersion := "10.0.0" } }

/-- Snapshot with no dependencies at all. -/
def exSnapNoDeps : EnvironmentSnapshot :=
  { exSnap with dependencies := ⟨[], [], "abc123", []⟩ }

/-- Snapshot whose single dependency `p` carries the empty version string. -/
def exSnapEmptyVer : EnvironmentSnapshot :=
  { exSnap with dependencies := ⟨[("p", "")], [], "abc123", []⟩ }

/-- Snapshot differing from `exSnap` only by one compose-file descriptor. -/
def exSnapCompose : EnvironmentSnapshot :=
  { exSnap with docker :=
      { exDocker with composeConfigs := [⟨"docker-compose.yml", Option.none, [], [], []⟩] } }

/-- Example envvar drift (as produced for a value difference). -/
def exEnvDrift : Drift :=
  ⟨DriftCategory.envvar, DriftSeverity.medium, "env.FOO", some "a", some "b",
   "Environment variable value differs", "Update FOO to match remote value"⟩

/-- Example dependency drift (remote version present). -/
def exDepDrift : Drift :=
  ⟨DriftCategory.dependency, DriftSeverity.high, "dependency.express",
   Option.none, some "5.0.0", "Missing dependency - may cause runtime errors",
   "Install express@5.0.0"⟩

/-- Example docker image drift with the image present only remotely. -/
def exDockDriftMissing : Drift :=
  ⟨DriftCategory.docker, DriftSeverity.high, "docker.image.redis:7",
   Option.none, some "redis:7", "Missing Docker image",
   "Pull Docker image: docker pull redis:7"⟩

/-- Example docker image drift with the image present only locally: its
`remote` value is absent. -/
def exDockDriftLocalOnly : Drift :=
  ⟨DriftCategory.docker, DriftSeverity.low, "docker.image.old:1",
   some "old:1", Option.none, "Extra Docker image not in remote",
   "Remove image or add to remote: old:1"⟩

/-- Report wrapper around a drift list (only `drifts` matters to `sync`). -/
def mkReport (ds : List Drift) : DriftReport :=
  ⟨decide (0 < ds.length), assessOverallSeverity ds, ds, generateSummary ds,
   exSnap, exSnap⟩

/-- Oracle under which every external command succeeds. -/
def exAllOk : ExecModel := fun _ => Except.ok ()

/-- Oracle simulating a RemediationFailure on the dependency install while
the docker pull succeeds. -/
def exFailInstall : ExecModel := fun cmd =>
  if cmd == "docker pull redis:7" then Except.ok ()
  else Except.error "simulated install failure"

/-- Oracle under which every external command fails. -/
def exAllFail : ExecModel := fun _ => Except.error "boom"

/-- Dry-run options. -/
def optsDry : SyncOptions := ⟨Option.none, true, Option.none, Option.none⟩

/-- Non-dry-run options. -/
def optsWet : SyncOptions := ⟨Option.none, false, Option.none, Option.none⟩

/-- A date codec satisfying the round-trip contract, used to instantiate the
serialization theorem: dates print as nonempty runs of `a` and parse back
as length minus one. -/
def wCodec : DateCodec :=
  ⟨fun n => String.mk (List.replicate (n + 1) 'a'), fun s => s.data.length - 1⟩

/-- Snapshot differing from `exSnap` only in the Node.js runtime version. -/
def exSnapNodeVer : EnvironmentSnapshot :=
  { exSnap with nodeVersion := { exNode with version := "20.1.0" } }

/-- Snapshot whose single dependency `p` carries a normal version. -/
def exSnapDepP : EnvironmentSnapshot :=
  { exSnap with dependencies := ⟨[("p", "5.0.0")], [], "abc123", []⟩ }

/-- Snapshot differing from `exSnap` only in the docker engine version. -/
def exSnapDockVer : EnvironmentSnapshot :=
  { exSnap with docker := { exDocker with version := some "25.0.1" } }

/-- A snapshot exercising every serialized field shape: production and
development dependencies, a native module, docker images with and without a
creation date, a container, and a compose config. -/
def exSnapFull : EnvironmentSnapshot :=
  { exSnap with
    dependencies := ⟨[("a", "1.0.0")], [("b", "2.0.0")], "lock",
      [⟨"m", "/p", "linux", "x64", "108", 5, 77⟩]⟩,
    docker := ⟨some "24.0.5", some "linux", some "x64",
      [⟨"i1", ["t1", "t2"], 10, some 99⟩, ⟨"i2", [], 3, Option.none⟩],
      [⟨"c1", "n1", "img", "running"⟩],
      [⟨"docker-compose.yml", some "3", ["s"], ["n"], ["v"]⟩]⟩ }

/-- Snapshot whose envvar set exercises the local-only and both-sides
cases. -/
def exSnapEnvL : EnvironmentSnapshot :=
  { exSnap with envVars :=
      ⟨[("HOME", "/root"), ("API_KEY", "[REDACTED]"), ("ONLY_LOCAL", "1")], ["API_KEY"]⟩ }

/-- Snapshot whose envvar set exercises the remote-only and both-sides
cases. -/
def exSnapEnvR : EnvironmentSnapshot :=
  { exSnap with envVars :=
      ⟨[("HOME", "/home"), ("PATH", "/bin"), ("API_KEY", "secret")], []⟩ }

/-- The docker engine-version drift `compareDocker exSnap exSnapDockVer`
produces. -/
def exDockVersionDrift : Drift :=
  ⟨DriftCategory.docker, DriftSeverity.medium, "docker.version",
   some "24.0.5", some "25.0.1", "Docker version mismatch - behavior may differ",
   "Update Docker to 25.0.1"⟩

/- ------------------------------------------------------------------ -/
/- Helper lemmas -/
/- ------------------------------------------------------------------ -/

theorem lookup_eq_none_iff (m : List (String × String)) (k : String) :
    List.lookup k m = Option.none ↔ k ∉ m.map Prod.fst := by
  induction m with
  | nil => simp
  | cons a l ih =>
      cases a with
      | mk k1 v1 =>
        by_cases h : k = k1
        · subst h
          simp [List.lookup]
        · simp [List.lookup, beq_eq_false_iff_ne.mpr h, h, ih]

theorem mem_keys_of_lookup (m : List (String × String)) (k v : String)
    (h : List.lookup k m = some v) : k ∈ m.map Prod.fst := by
  by_contra hk
  rw [← lookup_eq_none_iff m k, h] at hk
  cases hk

theorem lookup_mem (m : List (String × String)) (k v : String)
    (h : List.lookup k m = some v) : (k, v) ∈ m := by
  induction m with
  | nil => cases h
  | cons a tl ih =>
      cases a with
      | mk k1 v1 =>
        by_cases hk : k = k1
        · subst hk
          simp [List.lookup] at h
          subst h
          exact List.mem_cons_self _ _
        · simp only [List.lookup, beq_eq_false_iff_ne.mpr hk] at h
          exact List.mem_cons_of_mem _ (ih h)

theorem strAppend_left_cancel (p a b : String) (h : p ++ a = p ++ b) : a = b := by
  have hd := congrArg String.data h
  simp [String.data_append] at hd
  exact String.ext hd

theorem dependencyDriftFor_self (parse : String → Option Semver)
    (S : EnvironmentSnapshot) (pkg : String) :
    dependencyDriftFor parse S S pkg = Option.none := by
  simp [dependencyDriftFor]

theorem compareNodeVersions_self (parse : String → Option Semver)
    (S : EnvironmentSnapshot) : compareNodeVersions parse S S = [] := by
  simp [compareNodeVersions]

theorem compareDependencies_self (parse : String → Option Semver)
    (S : EnvironmentSnapshot) : compareDependencies parse S S = [] := by
  simp [compareDependencies, dependencyDriftFor_self]

theorem compareEnvVars_self (ev : EnvironmentVariables) :
    compareEnvVars ev ev = ⟨[], [], []⟩ := by
  simp [compareEnvVars]

theorem compareEnvironmentVars_self (S : EnvironmentSnapshot) :
    compareEnvironmentVars S S = [] := by
  simp [compareEnvironmentVars, compareEnvVars_self]

theorem compareDocker_self (S : EnvironmentSnapshot) :
    compareDocker S S = [] := by
  simp [compareDocker, compareDockerConfigs]

theorem find_self_of_nodup (l : List NativeModuleInfo)
    (h : (l.map NativeModuleInfo.name).Nodup) :
    ∀ m ∈ l, l.find? (fun x => x.name == m.name) = some m := by
  induction l with
  | nil => intro m hm; cases hm
  | cons a tl ih =>
      intro m hm
      simp only [List.map_cons, List.nodup_cons] at h
      rcases List.mem_cons.mp hm with rfl | hmem
      · simp [List.find?]
      · have hne : a.name ≠ m.name := by
          intro he
          exact h.1 (he ▸ List.mem_map_of_mem NativeModuleInfo.name hmem)
        rw [List.find?]
        simp only [beq_eq_false_iff_ne.mpr hne]
        exact ih h.2 m hmem

theorem compareNativeModules_self (l : List NativeModuleInfo)
    (h : (l.map NativeModuleInfo.name).Nodup) :
    compareNativeModules l l = [] := by
  unfold compareNativeModules
  rw [List.append_eq_nil]
  constructor
  · rw [List.flatMap_eq_nil_iff]
    intro m hm
    simp [nativeModuleDrifts, find_self_of_nodup l h m hm]
  · rw [List.filterMap_eq_nil_iff]
    intro m hm
    simp [find_self_of_nodup l h m hm]

/- ------------------------------------------------------------------ -/
/- C1 -/
/- ------------------------------------------------------------------ -/

/-- C1: for every well-formed snapshot `S`, `compareSnapshots S S` returns a
report with an empty drift list, `hasDrift = false` and overall severity
`none`, for any version parser. -/
theorem C1_identity_compare (parse : String → Option Semver)
    (S : EnvironmentSnapshot) (h : Wellformed S) :
    (compareSnapshots parse S S).drifts = [] ∧
    (compareSnapshots parse S S).hasDrift = false ∧
    (compareSnapshots parse S S).severity = DriftSeverity.none := by
  refine ⟨?_, ?_, ?_⟩ <;>
    simp [compareSnapshots, compareNodeVersions_self, compareDependencies_self,
      compareEnvironmentVars_self, compareDocker_self,
      compareNativeModules_self _ h.2.2.2, assessOverallSeverity]

/-- Witness for C1 at a concrete well-formed snapshot. -/
theorem C1_identity_compare_witness :
    Wellformed exSnap ∧
    ((compareSnapshots parseSemver exSnap exSnap).drifts = [] ∧
     (compareSnapshots parseSemver exSnap exSnap).hasDrift = false ∧
     (compareSnapshots parseSemver exSnap exSnap).severity = DriftSeverity.none) :=
  ⟨by decide, C1_identity_compare parseSemver exSnap (by decide)⟩

/- ------------------------------------------------------------------ -/
/- C2 -/
/- ------------------------------------------------------------------ -/

/-- C2: the dependency version severity classifier returns `medium` when
either string fails parsing, `high` when the major components differ, else
`medium` when the minor components differ, else `low`; and on the concrete
table rows, `1.0.0` vs `2.0.0` is `high`, `1.2.0` vs `1.3.0` is `medium`,
`1.2.3` vs `1.2.4` is `low`, and an unparsable side is `medium`. -/
theorem C2_version_classifier :
    (∀ (parse : String → Option Semver) (a b : String),
       parse a = Option.none ∨ parse b = Option.none →
       assessVersionDrift parse (some a) (some b) = DriftSeverity.medium) ∧
    (∀ (parse : String → Option Semver) (a b : String) (va vb : Semver),
       parse a = some va → parse b = some vb → va.major ≠ vb.major →
       assessVersionDrift parse (some a) (some b) = DriftSeverity.high) ∧
    (∀ (parse : String → Option Semver) (a b : String) (va vb : Semver),
       parse a = some va → parse b = some vb → va.major = vb.major →
       va.minor ≠ vb.minor →
       assessVersionDrift parse (some a) (some b) = DriftSeverity.medium) ∧
    (∀ (parse : String → Option Semver) (a b : String) (va vb : Semver),
       parse a = some va → parse b = some vb → va.major = vb.major →
       va.minor = vb.minor →
       assessVersionDrift parse (some a) (some b) = DriftSeverity.low) ∧
    assessVersionDrift parseSemver (some "1.0.0") (some "2.0.0") = DriftSeverity.high ∧
    assessVersionDrift parseSemver (some "1.2.0") (some "1.3.0") = DriftSeverity.medium ∧
    assessVersionDrift parseSemver (some "1.2.3") (some "1.2.4") = DriftSeverity.low ∧
    assessVersionDrift parseSemver (some "not-a-version") (some "1.0.0") = DriftSeverity.medium ∧
    assessVersionDrift parseSemver (some "1.0.0") (some "not-a-version") = DriftSeverity.medium := by
  refine ⟨?_, ?_, ?_, ?_, by decide, by decide, by decide, by decide, by decide⟩
  · intro parse a b h
    rcases h with h | h
    · simp [assessVersionDrift, parseOpt, h]
    · cases hpa : parse a <;> simp [assessVersionDrift, parseOpt, h, hpa]
  · intro parse a b va vb h1 h2 h3
    simp [assessVersionDrift, parseOpt, h1, h2, h3]
  · intro parse a b va vb h1 h2 h3 h4
    simp [assessVersionDrift, parseOpt, h1, h2, h3, h4]
  · intro parse a b va vb h1 h2 h3 h4
    simp [assessVersionDrift, parseOpt, h1, h2, h3, h4]

/-- Witness for C2: each classifier rule applied at a concrete input. -/
theorem C2_version_classifier_witness :
    assessVersionDrift parseSemver (some "x") (some "1.0.0") = DriftSeverity.medium ∧
    assessVersionDrift parseSemver (some "3.1.4") (some "4.0.0") = DriftSeverity.high ∧
    assessVersionDrift parseSemver (some "3.1.4") (some "3.2.4") = DriftSeverity.medium ∧
    assessVersionDrift parseSemver (some "3.1.4") (some "3.1.5") = DriftSeverity.low :=
  ⟨C2_version_classifier.1 parseSemver "x" "1.0.0" (Or.inl (by decide)),
   C2_version_classifier.2.1 parseSemver "3.1.4" "4.0.0" ⟨3, 1, 4⟩ ⟨4, 0, 0⟩
     (by decide) (by decide) (by decide),
   C2_version_classifier.2.2.1 parseSemver "3.1.4" "3.2.4" ⟨3, 1, 4⟩ ⟨3, 2, 4⟩
     (by decide) (by decide) (by decide) (by decide),
   C2_version_classifier.2.2.2.1 parseSemver "3.1.4" "3.1.5" ⟨3, 1, 4⟩ ⟨3, 1, 5⟩
     (by decide) (by decide) (by decide) (by decide)⟩

/- ------------------------------------------------------------------ -/
/- C9 -/
/- ------------------------------------------------------------------ -/

/-- C9 counterexample: with npm versions `9.6.7` vs `10.0.0` (a major
difference, which the Severity Classifier rates `high`), the runtime
sub-comparison emits the npm drift with severity `low` — the classifier is
not consulted for the package-manager version. -/
theorem C9_counterexample :
    (compareNodeVersions parseSemver exSnap exSnapNpm).map
      (fun d => (d.field, d.severity)) = [("npmVersion", DriftSeverity.low)] ∧
    assessVersionDrift parseSemver (some exSnap.nodeVersion.npmVersion)
      (some exSnapNpm.nodeVersion.npmVersion) = DriftSeverity.high := by
  decide

/-- C9 amended: a package-manager (npm) version difference always yields one
drift of fixed severity `low`; only the Node.js runtime `version` field is
routed through the Severity Classifier. -/
theorem C9_amended (parse : String → Option Semver) (l r : EnvironmentSnapshot) :
    (l.nodeVersion.npmVersion ≠ r.nodeVersion.npmVersion →
      (compareNodeVersions parse l r).filter (fun d => d.field == "npmVersion") =
        [{ category := DriftCategory.nodejs
           severity := DriftSeverity.low
           field := "npmVersion"
           «local» := some l.nodeVersion.npmVersion
           remote := some r.nodeVersion.npmVersion
           impact := "Package installation behavior may differ"
           recommendation := "Update npm to " ++ r.nodeVersion.npmVersion }]) ∧
    (l.nodeVersion.version ≠ r.nodeVersion.version →
      (compareNodeVersions parse l r).filter (fun d => d.field == "nodeVersion") =
        [{ category := DriftCategory.nodejs
           severity := assessNodeVersionDrift parse (some l.nodeVersion.version)
             (some r.nodeVersion.version)
           field := "nodeVersion"
           «local» := some l.nodeVersion.version
           remote := some r.nodeVersion.version
           impact := "Runtime behavior differences, potential API incompatibilities"
           recommendation := "Update local Node.js to " ++ r.nodeVersion.version }]) := by
  constructor <;> intro h <;>
    simp only [compareNodeVersions, List.filter_append, ne_eq, h, not_false_eq_true,
      if_true, if_neg] <;>
    split_ifs <;> simp

/-- Witness for the amended C9 at concrete snapshot pairs. -/
theorem C9_amended_witness :
    ((compareNodeVersions parseSemver exSnap exSnapNpm).filter
        (fun d => d.field == "npmVersion") =
      [{ category := DriftCategory.nodejs
         severity := DriftSeverity.low
         field := "npmVersion"
         «local» := some exSnap.nodeVersion.npmVersion
         remote := some exSnapNpm.nodeVersion.npmVersion
         impact := "Package installation behavior may differ"
         recommendation := "Update npm to " ++ exSnapNpm.nodeVersion.npmVersion }]) ∧
    ((compareNodeVersions parseSemver exSnap exSnapNodeVer).filter
        (fun d => d.field == "nodeVersion") =
      [{ category := DriftCategory.nodejs
         severity := assessNodeVersionDrift parseSemver
           (some exSnap.nodeVersion.version) (some exSnapNodeVer.nodeVersion.version)
         field := "nodeVersion"
         «local» := some exSnap.nodeVersion.version
         remote := some exSnapNodeVer.nodeVersion.version
         impact := "Runtime behavior differences, potential API incompatibilities"
         recommendation := "Update local Node.js to " ++ exSnapNodeVer.nodeVersion.version }]) :=
  ⟨(C9_amended parseSemver exSnap exSnapNpm).1 (by decide),
   (C9_amended parseSemver exSnap exSnapNodeVer).2 (by decide)⟩

/- ------------------------------------------------------------------ -/
/- C6 -/
/- ------------------------------------------------------------------ -/

/-- C6 counterexample: the dependency `p` is present on exactly one side
(the remote) with the legal-but-empty version range `""`.  JS truthiness
makes the remote-only branch fall through to the version-mismatch branch:
the drift is `medium` in both argument orders, not `high` for the
remote-only order as the claim requires. -/
theorem C6_counterexample :
    (compareDependencies parseSemver exSnapNoDeps exSnapEmptyVer).map
      (fun d => (d.field, d.severity, d.«local», d.remote)) =
      [("dependency.p", DriftSeverity.medium, Option.none, some "")] ∧
    (compareDependencies parseSemver exSnapEmptyVer exSnapNoDeps).map
      (fun d => (d.field, d.severity, d.«local», d.remote)) =
      [("dependency.p", DriftSeverity.medium, some "", Option.none)] := by
  decide

theorem mem_combinedKeys_of_find (d : DependencySnapshot) (pkg v : String)
    (h : combinedFind d pkg = some v) : pkg ∈ combinedKeys d := by
  unfold combinedKeys
  rw [List.mem_dedup, List.mem_append]
  unfold combinedFind at h
  cases hd : List.lookup pkg d.development with
  | some w => exact Or.inr (mem_keys_of_lookup _ _ _ hd)
  | none =>
      rw [hd] at h
      exact Or.inl (mem_keys_of_lookup _ _ _ h)

/-- C6 amended: when a dependency name is present on exactly one side with a
truthy (nonempty) version string, swapping the comparator's arguments swaps
the drift's local/remote fields but not the severity policy: the
remote-only drift is `high` and the local-only drift is `medium`; with an
empty version string the package instead falls into the version-mismatch
branch and is rated `medium` (see the counterexample). -/
theorem C6_amended (parse : String → Option Semver) (l r : EnvironmentSnapshot)
    (pkg v : String) (hv : v ≠ "")
    (hr : combinedFind r.dependencies pkg = some v)
    (hl : combinedFind l.dependencies pkg = Option.none) :
    (∃ d ∈ compareDependencies parse l r,
       d.field = "dependency." ++ pkg ∧ d.severity = DriftSeverity.high ∧
       d.«local» = Option.none ∧ d.remote = some v) ∧
    (∃ d ∈ compareDependencies parse r l,
       d.field = "dependency." ++ pkg ∧ d.severity = DriftSeverity.medium ∧
       d.«local» = some v ∧ d.remote = Option.none) := by
  have htv : truthy (some v) = true := by
    simp [truthy, hv]
  constructor
  · have h1 : dependencyDriftFor parse l r pkg = some
        { category := DriftCategory.dependency
          severity := DriftSeverity.high
          field := "dependency." ++ pkg
          «local» := Option.none
          remote := some v
          impact := "Missing dependency - may cause runtime errors"
          recommendation := "Install " ++ pkg ++ "@" ++ showOpt (some v) } := by
      unfold dependencyDriftFor
      rw [hl, hr]
      simp [truthy, hv]
    refine ⟨_, List.mem_append_left _ (List.mem_filterMap.mpr ⟨pkg, ?_, h1⟩),
      rfl, rfl, rfl, rfl⟩
    rw [List.mem_dedup, List.mem_append]
    exact Or.inr (mem_combinedKeys_of_find _ _ _ hr)
  · have h2 : dependencyDriftFor parse r l pkg = some
        { category := DriftCategory.dependency
          severity := DriftSeverity.medium
          field := "dependency." ++ pkg
          «local» := some v
          remote := Option.none
          impact := "Extra dependency not in remote"
          recommendation := "Remove " ++ pkg ++ " or add to remote environment" } := by
      unfold dependencyDriftFor
      rw [hl, hr]
      simp [truthy, hv]
    refine ⟨_, List.mem_append_left _ (List.mem_filterMap.mpr ⟨pkg, ?_, h2⟩),
      rfl, rfl, rfl, rfl⟩
    rw [List.mem_dedup, List.mem_append]
    exact Or.inl (mem_combinedKeys_of_find _ _ _ hr)

/-- Witness for the amended C6 at a concrete one-sided dependency. -/
theorem C6_amended_witness :
    combinedFind exSnapDepP.dependencies "p" = some "5.0.0" ∧
    combinedFind exSnapNoDeps.dependencies "p" = Option.none ∧
    ((∃ d ∈ compareDependencies parseSemver exSnapNoDeps exSnapDepP,
        d.field = "dependency." ++ "p" ∧ d.severity = DriftSeverity.high ∧
        d.«local» = Option.none ∧ d.remote = some "5.0.0") ∧
     (∃ d ∈ compareDependencies parseSemver exSnapDepP exSnapNoDeps,
        d.field = "dependency." ++ "p" ∧ d.severity = DriftSeverity.medium ∧
        d.«local» = some "5.0.0" ∧ d.remote = Option.none)) :=
  ⟨by decide, by decide,
   C6_amended parseSemver exSnapNoDeps exSnapDepP "p" "5.0.0" (by decide)
     (by decide) (by decide)⟩

/- ------------------------------------------------------------------ -/
/- C8 -/
/- ------------------------------------------------------------------ -/

/-- C8 counterexample: two snapshots whose container states declare 0 and 1
compose-file descriptors.  The underlying docker-config comparison records
the count mismatch, but the container sub-comparison emits no drift at all
for it — the topology difference is not reported as a drift. -/
theorem C8_counterexample :
    compareDocker exSnap exSnapCompose = [] ∧
    (compareDockerConfigs exSnap.docker exSnapCompose.docker).configDifferences =
      ["Compose file count mismatch: 0 vs 1"] := by
  decide

/-- C8 amended: the docker-config comparison reports a compose-file topology
difference only as the single coarse count-mismatch message (never
service-by-service), but the drift assembler ignores `configDifferences`
entirely: every drift the container sub-comparison produces is the engine
version drift or an image drift. -/
theorem C8_amended :
    (∀ dl dr : DockerSnapshot,
       dl.composeConfigs.length ≠ dr.composeConfigs.length →
       (compareDockerConfigs dl dr).configDifferences =
         ["Compose file count mismatch: " ++ toString dl.composeConfigs.length ++
           " vs " ++ toString dr.composeConfigs.length]) ∧
    (∀ (l r : EnvironmentSnapshot), ∀ d ∈ compareDocker l r,
       d.field = "docker.version" ∨ ∃ img, d.field = "docker.image." ++ img) := by
  constructor
  · intro dl dr h
    simp [compareDockerConfigs, h]
  · intro l r d hd
    by_cases hvm : (compareDockerConfigs l.docker r.docker).versionMismatch
    all_goals simp [compareDocker, hvm] at hd
    · rcases hd with rfl | ⟨img, _, rfl⟩ | ⟨img, _, rfl⟩
      · exact Or.inl rfl
      · exact Or.inr ⟨img, rfl⟩
      · exact Or.inr ⟨img, rfl⟩
    · rcases hd with ⟨img, _, rfl⟩ | ⟨img, _, rfl⟩
      · exact Or.inr ⟨img, rfl⟩
      · exact Or.inr ⟨img, rfl⟩

/-- Witness for the amended C8 at concrete inputs. -/
theorem C8_amended_witness :
    ((compareDockerConfigs exSnap.docker exSnapCompose.docker).configDifferences =
      ["Compose file count mismatch: " ++ toString exSnap.docker.composeConfigs.length ++
        " vs " ++ toString exSnapCompose.docker.composeConfigs.length]) ∧
    (exDockVersionDrift.field = "docker.version" ∨
      ∃ img, exDockVersionDrift.field = "docker.image." ++ img) :=
  ⟨C8_amended.1 exSnap.docker exSnapCompose.docker (by decide),
   C8_amended.2 exSnap exSnapDockVer exDockVersionDrift (by decide)⟩

/- ------------------------------------------------------------------ -/
/- C5 -/
/- ------------------------------------------------------------------ -/

theorem envvar_missing_drift (l r : EnvironmentSnapshot) (k v : String)
    (hrv : List.lookup k r.envVars.«variables» = some v)
    (hlv : List.lookup k l.envVars.«variables» = Option.none) :
    ∃ d ∈ compareEnvironmentVars l r, d.field = "env." ++ k ∧
      d.severity = DriftSeverity.high ∧ d.«local» = Option.none ∧
      d.remote = some "[SET]" := by
  have hkr : k ∈ (r.envVars.«variables».map Prod.fst).dedup :=
    List.mem_dedup.mpr (mem_keys_of_lookup _ _ _ hrv)
  have hkl : k ∉ (l.envVars.«variables».map Prod.fst).dedup := by
    rw [List.mem_dedup]
    exact (lookup_eq_none_iff _ _).mp hlv
  have hmiss : k ∈ (compareEnvVars l.envVars r.envVars).missing := by
    simp only [compareEnvVars]
    rw [List.mem_filter]
    refine ⟨hkr, ?_⟩
    simp [hkl]
  refine ⟨{ category := DriftCategory.envvar
            severity := DriftSeverity.high
            field := "env." ++ k
            «local» := Option.none
            remote := some "[SET]"
            impact := "Missing environment variable - may cause runtime errors"
            recommendation := "Set " ++ k ++ " in local environment" },
    ?_, rfl, rfl, rfl, rfl⟩
  unfold compareEnvironmentVars
  exact List.mem_append_left _ (List.mem_append_left _ (List.mem_map_of_mem _ hmiss))

theorem envvar_extra_drift (l r : EnvironmentSnapshot) (k v : String)
    (hlv : List.lookup k l.envVars.«variables» = some v)
    (hrv : List.lookup k r.envVars.«variables» = Option.none) :
    ∃ d ∈ compareEnvironmentVars l r, d.field = "env." ++ k ∧
      d.severity = DriftSeverity.low ∧ d.«local» = some "[SET]" ∧
      d.remote = Option.none := by
  have hkl : k ∈ (l.envVars.«variables».map Prod.fst).dedup :=
    List.mem_dedup.mpr (mem_keys_of_lookup _ _ _ hlv)
  have hkr : k ∉ (r.envVars.«variables».map Prod.fst).dedup := by
    rw [List.mem_dedup]
    exact (lookup_eq_none_iff _ _).mp hrv
  have hextra : k ∈ (compareEnvVars l.envVars r.envVars).extra := by
    simp only [compareEnvVars]
    rw [List.mem_filter]
    exact ⟨hkl, by simp [hkr]⟩
  refine ⟨{ category := DriftCategory.envvar
            severity := DriftSeverity.low
            field := "env." ++ k
            «local» := some "[SET]"
            remote := Option.none
            impact := "Extra environment variable not in remote"
            recommendation := "Remove " ++ k ++ " or add to remote environment" },
    ?_, rfl, rfl, rfl, rfl⟩
  unfold compareEnvironmentVars
  exact List.mem_append_left _ (List.mem_append_right _ (List.mem_map_of_mem _ hextra))

theorem envvar_different_drift (l r : EnvironmentSnapshot) (k lv rv : String)
    (hlv : List.lookup k l.envVars.«variables» = some lv)
    (hrv : List.lookup k r.envVars.«variables» = some rv)
    (hne : lv ≠ rv) (hlred : lv ≠ "[REDACTED]") (hrred : rv ≠ "[REDACTED]") :
    ∃ d ∈ compareEnvironmentVars l r, d.field = "env." ++ k ∧
      d.severity = DriftSeverity.medium ∧ d.«local» = some lv ∧
      d.remote = some rv := by
  have hkl : k ∈ (l.envVars.«variables».map Prod.fst).dedup :=
    List.mem_dedup.mpr (mem_keys_of_lookup _ _ _ hlv)
  have hkr : k ∈ (r.envVars.«variables».map Prod.fst).dedup :=
    List.mem_dedup.mpr (mem_keys_of_lookup _ _ _ hrv)
  have hdiff : k ∈ (compareEnvVars l.envVars r.envVars).different := by
    simp only [compareEnvVars]
    rw [List.mem_filter]
    refine ⟨hkl, ?_⟩
    simp [List.elem_iff.mpr hkr, hlv, hrv, hne, hlred, hrred]
    exact ⟨rv, lookup_mem _ _ _ hrv⟩
  have hmem : ({ category := DriftCategory.envvar
                 severity := DriftSeverity.medium
                 field := "env." ++ k
                 «local» := List.lookup k l.envVars.«variables»
                 remote := List.lookup k r.envVars.«variables»
                 impact := "Environment variable value differs"
                 recommendation := "Update " ++ k ++ " to match remote value" } : Drift)
      ∈ compareEnvironmentVars l r := by
    unfold compareEnvironmentVars
    exact List.mem_append_right _ (List.mem_map_of_mem _ hdiff)
  rw [hlv, hrv] at hmem
  exact ⟨_, hmem, rfl, rfl, rfl, rfl⟩

theorem envvar_redacted_skip (l r : EnvironmentSnapshot) (k lv rv : String)
    (hlv : List.lookup k l.envVars.«variables» = some lv)
    (hrv : List.lookup k r.envVars.«variables» = some rv)
    (hred : lv = "[REDACTED]" ∨ rv = "[REDACTED]") :
    ∀ d ∈ compareEnvironmentVars l r, d.field ≠ "env." ++ k := by
  intro d hd
  unfold compareEnvironmentVars at hd
  rcases List.mem_append.mp hd with h12 | h3
  · rcases List.mem_append.mp h12 with h1 | h2
    · rcases List.mem_map.mp h1 with ⟨k1, hk1, rfl⟩
      intro hf
      have : k1 = k := strAppend_left_cancel _ _ _ hf
      subst this
      simp only [compareEnvVars] at hk1
      rw [List.mem_filter] at hk1
      have := hk1.2
      simp at this
      exact this lv (lookup_mem _ _ _ hlv)
    · rcases List.mem_map.mp h2 with ⟨k1, hk1, rfl⟩
      intro hf
      have : k1 = k := strAppend_left_cancel _ _ _ hf
      subst this
      simp only [compareEnvVars] at hk1
      rw [List.mem_filter] at hk1
      have := hk1.2
      simp at this
      exact this rv (lookup_mem _ _ _ hrv)
  · rcases List.mem_map.mp h3 with ⟨k1, hk1, rfl⟩
    intro hf
    have : k1 = k := strAppend_left_cancel _ _ _ hf
    subst this
    simp only [compareEnvVars] at hk1
    rw [List.mem_filter] at hk1
    have hcond := hk1.2
    rw [hlv, hrv] at hcond
    rcases hred with h | h <;> subst h <;> simp at hcond

/-- C5: the envvar sub-comparison yields a `high` drift for each key present
only remotely, a `low` drift for each key present only locally, a `medium`
drift for a key on both sides with differing values, and no drift at all
for a key on both sides when either side's value is the redaction sentinel
`[REDACTED]`. -/
theorem C5_envvar_classification (l r : EnvironmentSnapshot) (k : String) :
    (∀ v, List.lookup k r.envVars.«variables» = some v →
       List.lookup k l.envVars.«variables» = Option.none →
       ∃ d ∈ compareEnvironmentVars l r, d.field = "env." ++ k ∧
         d.severity = DriftSeverity.high ∧ d.«local» = Option.none ∧
         d.remote = some "[SET]") ∧
    (∀ v, List.lookup k l.envVars.«variables» = some v →
       List.lookup k r.envVars.«variables» = Option.none →
       ∃ d ∈ compareEnvironmentVars l r, d.field = "env." ++ k ∧
         d.severity = DriftSeverity.low ∧ d.«local» = some "[SET]" ∧
         d.remote = Option.none) ∧
    (∀ lv rv, List.lookup k l.envVars.«variables» = some lv →
       List.lookup k r.envVars.«variables» = some rv →
       lv ≠ rv → lv ≠ "[REDACTED]" → rv ≠ "[REDACTED]" →
       ∃ d ∈ compareEnvironmentVars l r, d.field = "env." ++ k ∧
         d.severity = DriftSeverity.medium ∧ d.«local» = some lv ∧
         d.remote = some rv) ∧
    (∀ lv rv, List.lookup k l.envVars.«variables» = some lv →
       List.lookup k r.envVars.«variables» = some rv →
       (lv = "[REDACTED]" ∨ rv = "[REDACTED]") →
       ∀ d ∈ compareEnvironmentVars l r, d.field ≠ "env." ++ k) :=
  ⟨fun v hrv hlv => envvar_missing_drift l r k v hrv hlv,
   fun v hlv hrv => envvar_extra_drift l r k v hlv hrv,
   fun lv rv hlv hrv hne hlred hrred =>
     envvar_different_drift l r k lv rv hlv hrv hne hlred hrred,
   fun lv rv hlv hrv hred => envvar_redacted_skip l r k lv rv hlv hrv hred⟩

/-- Witness for C5: all four classification cases at one concrete pair of
envvar sets. -/
theorem C5_envvar_classification_witness :
    (∃ d ∈ compareEnvironmentVars exSnapEnvL exSnapEnvR,
       d.field = "env." ++ "PATH" ∧ d.severity = DriftSeverity.high ∧
       d.«local» = Option.none ∧ d.remote = some "[SET]") ∧
    (∃ d ∈ compareEnvironmentVars exSnapEnvL exSnapEnvR,
       d.field = "env." ++ "ONLY_LOCAL" ∧ d.severity = DriftSeverity.low ∧
       d.«local» = some "[SET]" ∧ d.remote = Option.none) ∧
    (∃ d ∈ compareEnvironmentVars exSnapEnvL exSnapEnvR,
       d.field = "env." ++ "HOME" ∧ d.severity = DriftSeverity.medium ∧
       d.«local» = some "/root" ∧ d.remote = some "/home") ∧
    (∀ d ∈ compareEnvironmentVars exSnapEnvL exSnapEnvR,
       d.field ≠ "env." ++ "API_KEY") :=
  ⟨(C5_envvar_classification exSnapEnvL exSnapEnvR "PATH").1 "/bin"
     (by decide) (by decide),
   (C5_envvar_classification exSnapEnvL exSnapEnvR "ONLY_LOCAL").2.1 "1"
     (by decide) (by decide),
   (C5_envvar_classification exSnapEnvL exSnapEnvR "HOME").2.2.1 "/root" "/home"
     (by decide) (by decide) (by decide) (by decide) (by decide),
   (C5_envvar_classification exSnapEnvL exSnapEnvR "API_KEY").2.2.2 "[REDACTED]"
     "secret" (by decide) (by decide) (Or.inl rfl)⟩

/- ------------------------------------------------------------------ -/
/- C10 -/
/- ------------------------------------------------------------------ -/

/-- C10: a docker drift on a `docker.image.` field whose remote value is
absent (image present only locally) produces no `SyncAction` at all under
`dryRun = false`: the step records nothing, the surrounding loop skips it,
and a run whose filtered drifts consist of such a drift ends with no
actions, zero summary counts, and no external command. -/
theorem C10_local_only_image_skipped (ex : ExecModel) (d : Drift)
    (hcat : d.category = DriftCategory.docker)
    (himg : strStartsWith d.field "docker.image." = true)
    (hrem : d.remote = Option.none) :
    dockerStep ex false d = ([], []) ∧
    (∀ ds, syncDocker ex false (d :: ds) = syncDocker ex false ds) ∧
    (∀ (report : DriftReport) (options : SyncOptions), options.dryRun = false →
       filterDrifts options report.drifts = [d] →
       (sync ex report options).1.actions = [] ∧
       (sync ex report options).1.summary = ⟨0, 0, 0⟩ ∧
       (sync ex report options).1.success = true ∧
       (sync ex report options).2 = []) := by
  have hstep : dockerStep ex false d = ([], []) := by
    simp [dockerStep, himg, hrem, truthy]
  refine ⟨hstep, ?_, ?_⟩
  · intro ds
    simp [syncDocker, hstep]
  · intro report options hdry hfilter
    have hdep : (d.category == DriftCategory.dependency) = false := by
      simp [hcat]
    have henv : (d.category == DriftCategory.envvar) = false := by simp [hcat]
    have hdock : (d.category == DriftCategory.docker) = true := by simp [hcat]
    have hbin : (d.category == DriftCategory.binary) = false := by simp [hcat]
    have hnode : (d.category == DriftCategory.nodejs) = false := by simp [hcat]
    refine ⟨?_, ?_, ?_, ?_⟩ <;>
      simp [sync, hfilter, hdry, hdep, henv, hdock, hbin, hnode,
        syncDependencies, syncEnvVars, syncDocker, syncNativeModules,
        syncNodeVersion, hstep]

/-- Witness for C10 at the concrete local-only image drift. -/
theorem C10_local_only_image_skipped_witness :
    dockerStep exAllOk false exDockDriftLocalOnly = ([], []) ∧
    ((sync exAllOk (mkReport [exDockDriftLocalOnly]) optsWet).1.actions = [] ∧
     (sync exAllOk (mkReport [exDockDriftLocalOnly]) optsWet).1.summary = ⟨0, 0, 0⟩ ∧
     (sync exAllOk (mkReport [exDockDriftLocalOnly]) optsWet).1.success = true ∧
     (sync exAllOk (mkReport [exDockDriftLocalOnly]) optsWet).2 = []) :=
  ⟨(C10_local_only_image_skipped exAllOk exDockDriftLocalOnly rfl (by decide)
      rfl).1,
   (C10_local_only_image_skipped exAllOk exDockDriftLocalOnly rfl (by decide)
      rfl).2.2 (mkReport [exDockDriftLocalOnly]) optsWet rfl (by decide)⟩

/- ------------------------------------------------------------------ -/
/- C4 -/
/- ------------------------------------------------------------------ -/

/-- C4: a failed remediation is recorded as a failed `SyncAction` carrying
the error description; processing one drift never affects the processing
of the remaining drifts (every handler is a per-drift map); `success` holds
iff zero actions failed; and `total = succeeded + failed = |actions|`.
The final conjunct replays the spec's scenario: a simulated failure on the
dependency install does not prevent the docker pull of a later category,
giving `success = false` and `summary = ⟨2, 1, 1⟩`. -/
theorem C4_partial_failure_tolerant :
    (∀ (ex : ExecModel) (report : DriftReport) (options : SyncOptions),
       (sync ex report options).1.summary.total =
         (sync ex report options).1.actions.length ∧
       (sync ex report options).1.summary.total =
         (sync ex report options).1.summary.succeeded +
           (sync ex report options).1.summary.failed ∧
       ((sync ex report options).1.success = true ↔
         (sync ex report options).1.summary.failed = 0)) ∧
    (∀ (ex : ExecModel) (dryRun : Bool) (d : Drift) (ds : List Drift),
       (syncDependencies ex dryRun (d :: ds)).1 =
         (syncDependencies ex dryRun [d]).1 ++ (syncDependencies ex dryRun ds).1 ∧
       (syncDocker ex dryRun (d :: ds)).1 =
         (syncDocker ex dryRun [d]).1 ++ (syncDocker ex dryRun ds).1 ∧
       (syncNativeModules ex dryRun (d :: ds)).1 =
         (syncNativeModules ex dryRun [d]).1 ++ (syncNativeModules ex dryRun ds).1 ∧
       (syncEnvVars (d :: ds)).1 = (syncEnvVars [d]).1 ++ (syncEnvVars ds).1 ∧
       (syncNodeVersion (d :: ds)).1 =
         (syncNodeVersion [d]).1 ++ (syncNodeVersion ds).1) ∧
    (∀ (ex : ExecModel) (d : Drift) (e : String),
       (∀ cmd, ex cmd = Except.error e) → d.field ≠ "lockfile" →
       (syncDependencies ex false [d]).1 =
         [{ drift := d, success := false, action := Option.none, error := some e }]) ∧
    ((sync exFailInstall (mkReport [exDepDrift, exDockDriftMissing])
        optsWet).1.actions.map (fun a => (a.drift.field, a.success, a.error)) =
      [("dependency.express", false, some "simulated install failure"),
       ("docker.image.redis:7", true, Option.none)] ∧
     (sync exFailInstall (mkReport [exDepDrift, exDockDriftMissing])
        optsWet).1.success = false ∧
     (sync exFailInstall (mkReport [exDepDrift, exDockDriftMissing])
        optsWet).1.summary = ⟨2, 1, 1⟩) := by
  refine ⟨?_, ?_, ?_, by decide, by decide, by decide⟩
  · intro ex report options
    refine ⟨rfl, ?_, ?_⟩
    · show (sync ex report options).1.actions.length = _
      exact List.length_eq_length_filter_add (fun (a : SyncAction) => a.success)
    · show ((((sync ex report options).1.actions.filter
          (fun a => !a.success)).length == 0) = true ↔ _)
      simp only [beq_iff_eq]
      exact Iff.rfl
  · intro ex dryRun d ds
    refine ⟨?_, ?_, ?_, ?_, ?_⟩ <;>
      simp [syncDependencies, syncDocker, syncNativeModules, syncEnvVars,
        syncNodeVersion]
  · intro ex d e hex hfield
    simp only [syncDependencies, List.map]
    rw [dependencyStep]
    rw [if_neg (by simp [hfield])]
    by_cases ht : truthy d.remote <;> simp [ht, hex]

/-- Witness for C4: the side-condition parts applied at concrete inputs. -/
theorem C4_partial_failure_tolerant_witness :
    ((sync exAllOk (mkReport [exEnvDrift]) optsWet).1.summary.total =
       (sync exAllOk (mkReport [exEnvDrift]) optsWet).1.actions.length ∧
     (sync exAllOk (mkReport [exEnvDrift]) optsWet).1.summary.total =
       (sync exAllOk (mkReport [exEnvDrift]) optsWet).1.summary.succeeded +
         (sync exAllOk (mkReport [exEnvDrift]) optsWet).1.summary.failed ∧
     ((sync exAllOk (mkReport [exEnvDrift]) optsWet).1.success = true ↔
       (sync exAllOk (mkReport [exEnvDrift]) optsWet).1.summary.failed = 0)) ∧
    ((syncDependencies exAllOk true (exDepDrift :: [exEnvDrift])).1 =
       (syncDependencies exAllOk true [exDepDrift]).1 ++
         (syncDependencies exAllOk true [exEnvDrift]).1) ∧
    ((syncDependencies exAllFail false [exDepDrift]).1 =
      [{ drift := exDepDrift, success := false, action := Option.none
         error := some "boom" }]) :=
  ⟨C4_partial_failure_tolerant.1 exAllOk (mkReport [exEnvDrift]) optsWet,
   (C4_partial_failure_tolerant.2.1 exAllOk true exDepDrift [exEnvDrift]).1,
   C4_partial_failure_tolerant.2.2.1 exAllFail exDepDrift "boom"
     (fun _ => rfl) (by decide)⟩

/- ------------------------------------------------------------------ -/
/- C3 -/
/- ------------------------------------------------------------------ -/

theorem dropPre?_append (pat : List Char) :
    ∀ (a b r : List Char), dropPre? pat a = some r →
      dropPre? pat (a ++ b) = some (r ++ b) := by
  induction pat with
  | nil =>
      intro a b r h
      simp [dropPre?] at h ⊢
      subst h
      rfl
  | cons p ps ih =>
      intro a b r h
      cases a with
      | nil => simp [dropPre?] at h
      | cons c cs =>
          simp [dropPre?] at h ⊢
          rcases h with ⟨hpc, h2⟩
          exact ⟨hpc, ih cs b r h2⟩

theorem marker_append (p x : String) (h : hasDryRunMarker p = true) :
    hasDryRunMarker (p ++ x) = true := by
  unfold hasDryRunMarker strStartsWith at h ⊢
  rw [Option.isSome_iff_exists] at h
  rcases h with ⟨r, hr⟩
  rw [String.data_append, dropPre?_append _ _ _ _ hr]
  rfl

theorem dependencyStep_dry (ex : ExecModel) (d : Drift) :
    (dependencyStep ex true d).2 = [] ∧
    (dependencyStep ex true d).1.success = true ∧
    (dependencyStep ex true d).1.drift = d ∧
    (d.field ≠ "lockfile" →
      hasDryRunMarker ((dependencyStep ex true d).1.action.getD "") = true) := by
  by_cases hlf : d.field = "lockfile"
  · simp [dependencyStep, hlf]
  · rw [dependencyStep, if_neg (by simp [hlf])]
    refine ⟨rfl, rfl, rfl, fun _ => ?_⟩
    exact marker_append "[DRY RUN] Would " _ (by decide)

theorem dockerStep_dry (ex : ExecModel) (d : Drift) :
    (dockerStep ex true d).2 = [] ∧
    (dockerStep ex true d).1.map (fun a => a.drift) = [d] ∧
    ∀ a ∈ (dockerStep ex true d).1, a.success = true ∧
      (strStartsWith d.field "docker.image." = true →
        hasDryRunMarker (a.action.getD "") = true) := by
  by_cases himg : strStartsWith d.field "docker.image." = true
  · rw [dockerStep, if_pos himg]
    simp only [if_pos rfl]
    refine ⟨rfl, rfl, ?_⟩
    intro a ha
    simp at ha
    subst ha
    exact ⟨rfl, fun _ =>
      marker_append "[DRY RUN] Would pull Docker image: " _ (by decide)⟩
  · rw [dockerStep, if_neg himg]
    refine ⟨rfl, rfl, ?_⟩
    intro a ha
    simp at ha
    subst ha
    exact ⟨rfl, fun h => absurd h himg⟩

theorem nativeModuleStep_dry (ex : ExecModel) (d : Drift) :
    (nativeModuleStep ex true d).2 = [] ∧
    (nativeModuleStep ex true d).1.success = true ∧
    (nativeModuleStep ex true d).1.drift = d ∧
    hasDryRunMarker ((nativeModuleStep ex true d).1.action.getD "") = true := by
  refine ⟨rfl, rfl, rfl, ?_⟩
  exact marker_append "[DRY RUN] Would rebuild " _ (by decide)

theorem category_partition (ds : List Drift) :
    (ds.filter (fun d => d.category == DriftCategory.dependency)).length +
    (ds.filter (fun d => d.category == DriftCategory.envvar)).length +
    (ds.filter (fun d => d.category == DriftCategory.docker)).length +
    (ds.filter (fun d => d.category == DriftCategory.binary)).length +
    (ds.filter (fun d => d.category == DriftCategory.nodejs)).length = ds.length := by
  induction ds with
  | nil => rfl
  | cons d tl ih =>
      cases hc : d.category <;>
        simp [List.filter_cons, hc] <;> omega

theorem syncDependencies_dry_trace (ex : ExecModel) (l : List Drift) :
    (syncDependencies ex true l).2 = [] := by
  simp only [syncDependencies, List.flatMap_eq_nil_iff]
  intro d hd
  exact (dependencyStep_dry ex d).1

theorem syncDocker_dry_trace (ex : ExecModel) (l : List Drift) :
    (syncDocker ex true l).2 = [] := by
  simp only [syncDocker, List.flatMap_eq_nil_iff]
  intro d hd
  exact (dockerStep_dry ex d).1

theorem syncNativeModules_dry_trace (ex : ExecModel) (l : List Drift) :
    (syncNativeModules ex true l).2 = [] := by
  simp only [syncNativeModules, List.flatMap_eq_nil_iff]
  intro d hd
  exact (nativeModuleStep_dry ex d).1

theorem syncDependencies_dry_mem (ex : ExecModel) (l : List Drift) :
    ∀ a ∈ (syncDependencies ex true l).1, a.success = true ∧ a.drift ∈ l ∧
      (a.drift.field ≠ "lockfile" →
        hasDryRunMarker (a.action.getD "") = true) := by
  intro a ha
  simp only [syncDependencies, List.mem_map] at ha
  rcases ha with ⟨d, hd, rfl⟩
  have h := dependencyStep_dry ex d
  refine ⟨h.2.1, by rw [h.2.2.1]; exact hd, fun hf => h.2.2.2 ?_⟩
  rwa [h.2.2.1] at hf

theorem syncEnvVars_mem (l : List Drift) :
    ∀ a ∈ (syncEnvVars l).1, a.success = true ∧ a.drift ∈ l := by
  intro a ha
  simp only [syncEnvVars, List.mem_map] at ha
  rcases ha with ⟨d, hd, rfl⟩
  exact ⟨rfl, hd⟩

theorem syncDocker_dry_mem (ex : ExecModel) (l : List Drift) :
    ∀ a ∈ (syncDocker ex true l).1, a.success = true ∧ a.drift ∈ l ∧
      (strStartsWith a.drift.field "docker.image." = true →
        hasDryRunMarker (a.action.getD "") = true) := by
  intro a ha
  simp only [syncDocker, List.mem_flatMap] at ha
  rcases ha with ⟨d, hd, hstep⟩
  have h := dockerStep_dry ex d
  have hdrift : a.drift = d := by
    have hmm : a.drift ∈ (dockerStep ex true d).1.map (fun a => a.drift) :=
      List.mem_map_of_mem _ hstep
    rw [h.2.1] at hmm
    simpa using hmm
  have hprops := h.2.2 a hstep
  refine ⟨hprops.1, by rw [hdrift]; exact hd, fun hf => hprops.2 ?_⟩
  rwa [hdrift] at hf

theorem syncNativeModules_dry_mem (ex : ExecModel) (l : List Drift) :
    ∀ a ∈ (syncNativeModules ex true l).1, a.success = true ∧ a.drift ∈ l ∧
      hasDryRunMarker (a.action.getD "") = true := by
  intro a ha
  simp only [syncNativeModules, List.mem_map] at ha
  rcases ha with ⟨d, hd, rfl⟩
  have h := nativeModuleStep_dry ex d
  exact ⟨h.2.1, by rw [h.2.2.1]; exact hd, h.2.2.2⟩

theorem syncNodeVersion_mem (l : List Drift) :
    ∀ a ∈ (syncNodeVersion l).1, a.success = true ∧ a.drift ∈ l := by
  intro a ha
  simp only [syncNodeVersion, List.mem_map] at ha
  rcases ha with ⟨d, hd, rfl⟩
  exact ⟨rfl, hd⟩

theorem syncDocker_dry_length (ex : ExecModel) (l : List Drift) :
    (syncDocker ex true l).1.length = l.length := by
  induction l with
  | nil => rfl
  | cons d tl ih =>
      have h := (dockerStep_dry ex d).2.1
      have hlen : (dockerStep ex true d).1.length = 1 := by
        have hl := congrArg List.length h
        simpa using hl
      simp [syncDocker, List.flatMap_cons] at ih ⊢
      omega

/-- C3 counterexample: under `dryRun = true` an envvar drift's action is the
usual manual instruction, which carries no `[DRY RUN]` simulation marker —
so not every dry-run action is marked as simulated. -/
theorem C3_counterexample :
    (sync exAllOk (mkReport [exEnvDrift]) optsDry).1.actions.map
      (fun a => (a.success, a.action)) =
      [(true, some "[MANUAL] Set environment variable: FOO=b")] ∧
    hasDryRunMarker "[MANUAL] Set environment variable: FOO=b" = false := by
  decide

/-- C3 amended: with `dryRun = true`, `sync` hands no command to the
external executor, returns exactly one successful action per filtered
drift, and every action on a path that would otherwise perform an external
mutating call (dependency install/remove, docker image pull, native-module
rebuild) carries the `[DRY RUN]` simulation marker; the remaining actions
keep their usual manual-instruction texts. -/
theorem C3_dry_run (ex : ExecModel) (report : DriftReport)
    (options : SyncOptions) (hdry : options.dryRun = true) :
    (sync ex report options).2 = [] ∧
    (sync ex report options).1.actions.length =
      (filterDrifts options report.drifts).length ∧
    (∀ a ∈ (sync ex report options).1.actions, a.success = true) ∧
    (∀ a ∈ (sync ex report options).1.actions, simulatedPath a.drift →
      hasDryRunMarker (a.action.getD "") = true) := by
  refine ⟨?_, ?_, ?_, ?_⟩
  · simp only [sync, hdry]
    rw [syncDependencies_dry_trace, syncDocker_dry_trace,
      syncNativeModules_dry_trace]
    rfl
  · simp only [sync, hdry]
    simp only [List.length_append]
    rw [syncDocker_dry_length]
    simp only [syncDependencies, syncEnvVars, syncNativeModules, syncNodeVersion,
      List.length_map]
    exact category_partition _
  · intro a ha
    simp only [sync, hdry, List.mem_append] at ha
    rcases ha with (((h1 | h2) | h3) | h4) | h5
    · exact (syncDependencies_dry_mem ex _ a h1).1
    · exact (syncEnvVars_mem _ a h2).1
    · exact (syncDocker_dry_mem ex _ a h3).1
    · exact (syncNativeModules_dry_mem ex _ a h4).1
    · exact (syncNodeVersion_mem _ a h5).1
  · intro a ha hsim
    simp only [sync, hdry, List.mem_append] at ha
    rcases ha with (((h1 | h2) | h3) | h4) | h5
    · have h := syncDependencies_dry_mem ex _ a h1
      have hcat : (a.drift.category == DriftCategory.dependency) = true :=
        (List.mem_filter.mp h.2.1).2
      rcases hsim with ⟨_, hlf⟩ | ⟨hc, _⟩ | hc
      · exact h.2.2 hlf
      · rw [hc] at hcat; cases hcat
      · rw [hc] at hcat; cases hcat
    · have h := syncEnvVars_mem _ a h2
      have hcat : (a.drift.category == DriftCategory.envvar) = true :=
        (List.mem_filter.mp h.2).2
      rcases hsim with ⟨hc, _⟩ | ⟨hc, _⟩ | hc <;>
        (rw [hc] at hcat; cases hcat)
    · have h := syncDocker_dry_mem ex _ a h3
      have hcat : (a.drift.category == DriftCategory.docker) = true :=
        (List.mem_filter.mp h.2.1).2
      rcases hsim with ⟨hc, _⟩ | ⟨_, himg⟩ | hc
      · rw [hc] at hcat; cases hcat
      · exact h.2.2 himg
      · rw [hc] at hcat; cases hcat
    · exact (syncNativeModules_dry_mem ex _ a h4).2.2
    · have h := syncNodeVersion_mem _ a h5
      have hcat : (a.drift.category == DriftCategory.nodejs) = true :=
        (List.mem_filter.mp h.2).2
      rcases hsim with ⟨hc, _⟩ | ⟨hc, _⟩ | hc <;>
        (rw [hc] at hcat; cases hcat)

/-- Witness for the amended C3 at a concrete three-category report. -/
theorem C3_dry_run_witness :
    (sync exAllOk (mkReport [exEnvDrift, exDepDrift, exDockDriftMissing])
      optsDry).2 = [] ∧
    (sync exAllOk (mkReport [exEnvDrift, exDepDrift, exDockDriftMissing])
      optsDry).1.actions.length =
      (filterDrifts optsDry
        (mkReport [exEnvDrift, exDepDrift, exDockDriftMissing]).drifts).length :=
  ⟨(C3_dry_run exAllOk (mkReport [exEnvDrift, exDepDrift, exDockDriftMissing])
      optsDry rfl).1,
   (C3_dry_run exAllOk (mkReport [exEnvDrift, exDepDrift, exDockDriftMissing])
      optsDry rfl).2.1⟩

/- ------------------------------------------------------------------ -/
/- C7 -/
/- ------------------------------------------------------------------ -/

theorem optMapList_round (f : α → Option β) (g : β → α) (l : List β)
    (h : ∀ b ∈ l, f (g b) = some b) : optMapList f (l.map g) = some l := by
  induction l with
  | nil => rfl
  | cons b tl ih =>
      simp only [List.map_cons, optMapList, h b (List.mem_cons_self b tl)]
      rw [ih (fun x hx => h x (List.mem_cons_of_mem _ hx))]

theorem decodeStringMap_round (m : List (String × String)) :
    decodeStringMap (Json.obj (m.map (fun kv => (kv.1, Json.str kv.2)))) = some m := by
  simp only [decodeStringMap]
  exact optMapList_round _ _ m (fun b hb => rfl)

theorem decodeStrings_round (l : List String) :
    decodeStrings (Json.arr (l.map Json.str)) = some l := by
  simp only [decodeStrings]
  exact optMapList_round _ _ l (fun b hb => rfl)

theorem decodeNodeVersion_round (nv : NodeVersionInfo) :
    decodeNodeVersion (jsonOfNodeVersion nv) = some nv := by
  obtain ⟨v1, v2, v3, v4, v5, v6, o⟩ := nv
  cases o <;> rfl

theorem decodeContainer_round (ct : DockerContainer) :
    decodeContainer (jsonOfContainer ct) = some ct := rfl

theorem decodeSystem_round (sys : SystemInfo) :
    decodeSystem (jsonOfSystem sys) = some sys := rfl

theorem decodeCompose_round (cc : DockerComposeConfig) :
    decodeCompose (jsonOfCompose cc) = some cc := by
  obtain ⟨f, v, s, n, vol⟩ := cc
  cases v <;>
    simp [decodeCompose, jsonOfCompose, jsonOfStrings, Json.getStr?, Json.getOptStr?,
      Json.get?, Json.asStr?, List.lookup, decodeStrings_round]

theorem decodeNativeModule_round (c : DateCodec)
    (hinv : ∀ n, c.parseDate (c.printDate n) = n) (m : NativeModuleInfo) :
    decodeNativeModule c (jsonOfNativeModule c m) = some m := by
  obtain ⟨n1, n2, n3, n4, n5, n6, n7⟩ := m
  simp [decodeNativeModule, jsonOfNativeModule, Json.getStr?, Json.getNum?,
    Json.get?, Json.asStr?, Json.asNum?, List.lookup, hinv]

theorem decodeImage_round (c : DateCodec)
    (hinv : ∀ n, c.parseDate (c.printDate n) = n)
    (hne : ∀ n, c.printDate n ≠ "") (i : DockerImage) :
    decodeImage c (jsonOfImage c i) = some i := by
  obtain ⟨i1, i2, i3, cr⟩ := i
  cases cr with
  | none =>
      simp [decodeImage, jsonOfImage, jsonOfStrings, Json.getStr?, Json.getNum?,
        Json.getOptStr?, Json.get?, Json.asStr?, Json.asNum?, List.lookup,
        decodeStrings_round]
  | some dt =>
      simp [decodeImage, jsonOfImage, jsonOfStrings, Json.getStr?, Json.getNum?,
        Json.getOptStr?, Json.get?, Json.asStr?, Json.asNum?, List.lookup,
        decodeStrings_round, hinv, hne dt]

theorem decodeEnvVars_round (ev : EnvironmentVariables) :
    decodeEnvVars (jsonOfEnvVars ev) = some ev := by
  obtain ⟨vars, red⟩ := ev
  simp [decodeEnvVars, jsonOfEnvVars, jsonOfStringMap, jsonOfStrings, Json.get?,
    List.lookup, decodeStringMap_round, decodeStrings_round]

theorem decodeDependencies_round (c : DateCodec)
    (hinv : ∀ n, c.parseDate (c.printDate n) = n) (d : DependencySnapshot) :
    decodeDependencies c (jsonOfDependencies c d) = some d := by
  obtain ⟨p, dev, lh, nm⟩ := d
  simp [decodeDependencies, jsonOfDependencies, jsonOfStringMap, Json.get?,
    Json.getStr?, Json.getArr?, Json.asStr?, Json.asArr?, List.lookup,
    decodeStringMap_round,
    optMapList_round (decodeNativeModule c) (jsonOfNativeModule c) nm
      (fun b hb => decodeNativeModule_round c hinv b)]

theorem decodeDocker_round (c : DateCodec)
    (hinv : ∀ n, c.parseDate (c.printDate n) = n)
    (hne : ∀ n, c.printDate n ≠ "") (dk : DockerSnapshot) :
    decodeDocker c (jsonOfDocker c dk) = some dk := by
  obtain ⟨v, p, a, im, ct, cc⟩ := dk
  cases v <;> cases p <;> cases a <;>
    simp [decodeDocker, jsonOfDocker, jsonOfOptNull, Json.get?, Json.getStrNull?,
      Json.getArr?, Json.asArr?, List.lookup,
      optMapList_round (decodeImage c) (jsonOfImage c) im
        (fun b hb => decodeImage_round c hinv hne b),
      optMapList_round decodeContainer jsonOfContainer ct
        (fun b hb => decodeContainer_round b),
      optMapList_round decodeCompose jsonOfCompose cc
        (fun b hb => decodeCompose_round b)]

theorem deserializeSnapshot_round (c : DateCodec)
    (hinv : ∀ n, c.parseDate (c.printDate n) = n)
    (hne : ∀ n, c.printDate n ≠ "") (S : EnvironmentSnapshot) :
    deserializeSnapshot c (serializeSnapshot c S) = some S := by
  obtain ⟨ts, env, nv, dep, ev, dk, sys, h⟩ := S
  simp [deserializeSnapshot, serializeSnapshot, Json.get?, Json.getStr?,
    Json.asStr?, List.lookup, hinv,
    decodeNodeVersion_round, decodeDependencies_round c hinv,
    decodeEnvVars_round, decodeDocker_round c hinv hne, decodeSystem_round]
  cases env <;> simp [environmentString, decodeEnvironment]

/-- C7: for every snapshot `S` and any date codec on which parsing inverts
printing (the ISO `Date` contract of §6, with nonempty date-time strings),
deserializing the serialized document and re-serializing reproduces the
original document exactly — hence, for any rendering of documents to text,
byte-for-byte identical output, date-typed fields (snapshot timestamp,
image created times, native-module modified times) included. -/
theorem C7_serialize_round_trip (c : DateCodec)
    (hinv : ∀ n, c.parseDate (c.printDate n) = n)
    (hne : ∀ n, c.printDate n ≠ "") (S : EnvironmentSnapshot) :
    (deserializeSnapshot c (serializeSnapshot c S)).map (serializeSnapshot c) =
      some (serializeSnapshot c S) ∧
    (∀ render : Json → String,
      (deserializeSnapshot c (serializeSnapshot c S)).map
        (fun S2 => render (serializeSnapshot c S2)) =
        some (render (serializeSnapshot c S))) := by
  rw [deserializeSnapshot_round c hinv hne S]
  exact ⟨rfl, fun render => rfl⟩

theorem wCodec_inv (n : Nat) : wCodec.parseDate (wCodec.printDate n) = n := by
  simp [wCodec]

theorem wCodec_ne (n : Nat) : wCodec.printDate n ≠ "" := by
  intro h
  have hd := congrArg String.data h
  simp [wCodec] at hd

/-- Witness for C7 at a concrete date codec and a snapshot exercising every
serialized field shape. -/
theorem C7_serialize_round_trip_witness :
    (deserializeSnapshot wCodec (serializeSnapshot wCodec exSnapFull)).map
      (serializeSnapshot wCodec) = some (serializeSnapshot wCodec exSnapFull) :=
  (C7_serialize_round_trip wCodec wCodec_inv wCodec_ne exSnapFull).1

end EnvSync
